import Mathlib

/-!
# cos-customizer provisioner: GPU install step, docker client, systemd client

A shallow embedding of `src/pkg/provisioner/{install_gpu_step,docker,systemd}.go`.

Modelling conventions.

* A Go `string` / `[]byte` is a list of bytes, each byte a natural number
  (`GoString`).  String literals of the source are written `bytes "..."`.
* A Go `error` result is `Option GoError` (`none` is `nil`).
* Every interaction with the outside world (external command, directory
  creation, file read/write/open, glob) is recorded as an `Action` appended to
  a trace.  The outcome of an interaction is supplied by a `World`, and may
  depend on the whole history of earlier interactions.  Functions of the source
  that touch the world take the history so far and return the extended history.
* Calls to `log.Printf` / `log.Println` are not recorded.
* The Go standard library functions that the source calls (`strings.HasSuffix`,
  `strings.TrimSuffix`, `strings.TrimPrefix`, `strings.FieldsFunc`,
  `strings.Contains`, `filepath.Join`) are defined here after their documented
  behaviour on Unix.
-/

namespace Provisioner

/-- A Go string (or byte slice): a sequence of bytes. -/
abbrev GoString := List Nat

/-- UTF-8 encoding of one code point, as the Go compiler stores string literals. -/
def utf8EncodeChar (c : Char) : List Nat :=
  let v := c.toNat
  if v < 0x80 then [v]
  else if v < 0x800 then [0xC0 + v / 0x40, 0x80 + v % 0x40]
  else if v < 0x10000 then [0xE0 + v / 0x1000, 0x80 + (v / 0x40) % 0x40, 0x80 + v % 0x40]
  else [0xF0 + v / 0x40000, 0x80 + (v / 0x1000) % 0x40, 0x80 + (v / 0x40) % 0x40, 0x80 + v % 0x40]

/-- The bytes of a string literal. -/
def bytes (s : String) : GoString :=
  (s.toList.map utf8EncodeChar).flatten

/-- Go `error` values.  `external` is an error produced by the outside world
(a failed process, a failed system call); the other constructors are the error
values built by the source with `errors.New` and `fmt.Errorf`, kept symbolic:
the format string, the string arguments, and the wrapped error if any. -/
inductive GoError where
  | external (id : Nat)
  | new (msg : String)
  | errorf (format : String) (args : List GoString)
  | errorfWrap (format : String) (args : List GoString) (cause : GoError)
  deriving DecidableEq, Repr

/-- One interaction with the outside world. -/
inductive Action where
  /-- Call `utils.RunCommand(argv, dir, env)`; `env = none` is a nil slice. -/
  | runCommand (argv : List GoString) (dir : GoString) (env : Option (List GoString))
  /-- Call `exec.Command(argv[0], argv[1:]...).Run()`. -/
  | execRun (argv : List GoString)
  /-- Call `os.MkdirAll(path, perm)`. -/
  | mkdirAll (path : GoString) (perm : Nat)
  /-- Call `filepath.Glob(pattern)`. -/
  | glob (pattern : GoString)
  /-- Call `ioutil.ReadFile(path)`. -/
  | readFile (path : GoString)
  /-- Call `ioutil.WriteFile(path, data, perm)`. -/
  | writeFile (path : GoString) (data : List Nat) (perm : Nat)
  /-- Call `os.Open(path)`. -/
  | openFile (path : GoString)
  /-- Call `io.Copy(os.Stdout, f)` for the open file `path`. -/
  | copyToStdout (path : GoString)
  /-- The deferred `f.Close()` of the open file `path`. -/
  | closeFile (path : GoString)
  deriving DecidableEq, Repr

/-- The history of interactions, oldest first. -/
abbrev Trace := List Action

/-- The outside world: for each kind of interaction, its outcome after a given
history.  `environ` is the value of `os.Environ()`. -/
structure World where
  environ : List GoString
  command : Trace → List GoString → GoString → Option (List GoString) → Option GoError
  exec : Trace → List GoString → Option GoError
  mkdir : Trace → GoString → Nat → Option GoError
  globFiles : Trace → GoString → Except GoError (List GoString)
  read : Trace → GoString → Except GoError (List Nat)
  write : Trace → GoString → List Nat → Nat → Option GoError
  openFile : Trace → GoString → Option GoError
  copy : Trace → GoString → Option GoError

/-! ## Go standard library functions used by the source -/

/-- Go `strings.HasPrefix(s, prefix)`. -/
def hasPrefix (s pre : GoString) : Bool :=
  pre.isPrefixOf s

/-- Go `strings.HasSuffix(s, suffix)`. -/
def hasSuffix (s suf : GoString) : Bool :=
  suf.isSuffixOf s

/-- Go `strings.TrimPrefix(s, prefix)`: `s` without the leading `prefix`, or `s`
itself when it does not start with `prefix`. -/
def trimPrefix (s pre : GoString) : GoString :=
  if hasPrefix s pre then s.drop pre.length else s

/-- Go `strings.TrimSuffix(s, suffix)`: `s` without the trailing `suffix`, or `s`
itself when it does not end with `suffix`. -/
def trimSuffix (s suf : GoString) : GoString :=
  if hasSuffix s suf then s.take (s.length - suf.length) else s

/-- Loop of `fieldsFunc`: `cur` is the field being read, in reverse. -/
def fieldsFuncAux (f : Nat → Bool) : List Nat → List Nat → List GoString
  | [], cur => if cur.isEmpty then [] else [cur.reverse]
  | c :: cs, cur =>
    if f c then
      if cur.isEmpty then fieldsFuncAux f cs [] else cur.reverse :: fieldsFuncAux f cs []
    else fieldsFuncAux f cs (c :: cur)

/-- Go `strings.FieldsFunc(s, f)`: the maximal non-empty runs of `s` none of
whose elements satisfies `f`.  The source's predicate is `r == '-'`; Go decodes
the rune `'-'` exactly at the bytes equal to `0x2D`, so the split is taken on
bytes. -/
def fieldsFunc (s : GoString) (f : Nat → Bool) : List GoString :=
  fieldsFuncAux f s []

/-- Go `strings.Contains(s, substr)`. -/
def stringsContains : GoString → GoString → Bool
  | [], sub => sub.isEmpty
  | c :: cs, sub => sub.isPrefixOf (c :: cs) || stringsContains cs sub

/-- Split a path at every `/` (byte 47), keeping empty components. -/
def splitSlash : List Nat → List Nat → List GoString
  | [], cur => [cur.reverse]
  | c :: cs, cur => if c = 47 then cur.reverse :: splitSlash cs [] else splitSlash cs (c :: cur)

/-- Component pass of Go `filepath.Clean` on Unix: `out` is the stack of kept
components, innermost first. -/
def cleanComponents (rooted : Bool) : List GoString → List GoString → List GoString
  | [], out => out.reverse
  | c :: cs, out =>
    if c = [] ∨ c = bytes "." then cleanComponents rooted cs out
    else if c = bytes ".." then
      match out with
      | top :: rest =>
        if top = bytes ".." then cleanComponents rooted cs (c :: out)
        else cleanComponents rooted cs rest
      | [] => if rooted then cleanComponents rooted cs [] else cleanComponents rooted cs [c]
    else cleanComponents rooted cs (c :: out)

/-- Go `filepath.Clean(path)` on Unix. -/
def filepathClean (path : GoString) : GoString :=
  if path = [] then bytes "."
  else
    let rooted := path.head? = some 47
    let body := (cleanComponents rooted (splitSlash path []) []).intersperse (bytes "/")
    let out := (if rooted then bytes "/" else []) ++ body.flatten
    if out = [] then bytes "." else out

/-- Go `filepath.Join(elem...)` on Unix: the elements from the first non-empty
one on, separated by `/`, then cleaned; the empty string if all are empty. -/
def filepathJoin : List GoString → GoString
  | [] => []
  | e :: es => if e = [] then filepathJoin es else filepathClean ((e :: es).intersperse (bytes "/")).flatten

/-! ## Parts of the repository outside the embedded files -/

/-- Modelled from the spec: the command runner `utils.RunCommand(argv, dir, env)`
(package `utils` is not among the embedded files).  It spawns one external
process, waits for it, and returns success or a failure; no retry.  The outcome
is the world's answer for this command after the current history. -/
def runCommand (w : World) (argv : List GoString) (dir : GoString)
    (env : Option (List GoString)) (t : Trace) : Option GoError × Trace :=
  (w.command t argv dir env, t ++ [Action.runCommand argv dir env])

/-- Modelled from the spec: the dependencies bundle `Deps` (its declaration is
not among the embedded files): resolved paths of the container-runtime,
journal-reader, mount and init-control binaries, and the root directory. -/
structure Deps where
  DockerCmd : GoString
  JournalctlCmd : GoString
  MountCmd : GoString
  SystemctlCmd : GoString
  RootDir : GoString
  deriving DecidableEq, Repr

/-! ## docker.go -/

/-- The struct `docker`. -/
structure docker where
  dockerCmd : GoString
  journalctl : GoString
  deriving DecidableEq, Repr

/-- The method `docker.run`. -/
def docker.run (w : World) (d : docker) (args : List GoString) (env : List GoString)
    (t : Trace) : Option GoError × Trace :=
  let cmd := [d.dockerCmd, bytes "run"]
  let cmd := cmd ++ args
  runCommand w cmd [] (some (w.environ ++ env)) t

/-- The loop `for i := 1; i <= 10; i++` of `docker.pull` with `n` iterations
left to go.  The result is `Sum.inl` of the history when an attempt succeeded
(the method returns `nil` from inside the loop), and otherwise `Sum.inr` of the
current value of the variable `err` and the history when the loop ran out. -/
def docker.pullLoop (w : World) (cmd : List GoString) :
    Nat → Option GoError → Trace → Trace ⊕ (Option GoError × Trace)
  | 0, err, t => Sum.inr (err, t)
  | n + 1, _, t =>
    match runCommand w cmd [] none t with
    | (none, t1) => Sum.inl t1
    | (some e, t1) => docker.pullLoop w cmd n (some e) t1

/-- The method `docker.pull`. -/
def docker.pull (w : World) (d : docker) (args : List GoString) (t : Trace) :
    Option GoError × Trace :=
  let cmd := [d.dockerCmd, bytes "pull"]
  let cmd := cmd ++ args
  match docker.pullLoop w cmd 10 none t with
  | Sum.inl t1 => (none, t1)
  | Sum.inr (err, t1) =>
    let (_, t2) :=
      runCommand w [d.journalctl, bytes "-u", bytes "docker.service", bytes "--no-pager"] [] none t1
    (err, t2)

/-! ## systemd.go -/

/-- The struct `systemdClient`. -/
structure systemdClient where
  systemctl : GoString
  deriving DecidableEq, Repr

/-- The method `systemdClient.isActive`: the query is run with
`exec.Command(...).Run()`, not with the command runner. -/
def systemdClient.isActive (w : World) (sc : systemdClient) (unit : GoString) (t : Trace) :
    Bool × Trace :=
  let argv := [sc.systemctl, bytes "is-active", unit]
  (w.exec t argv == none, t ++ [Action.execRun argv])

/-- The method `systemdClient.stop`. -/
def systemdClient.stop (w : World) (sc : systemdClient) (unit : GoString) (t : Trace) :
    Option GoError × Trace :=
  match systemdClient.isActive w sc unit t with
  | (true, t1) =>
    match runCommand w [sc.systemctl, bytes "stop", unit] [] none t1 with
    | (some err, t2) => (some err, t2)
    | (none, t2) => (none, t2)
  | (false, t1) => (none, t1)

/-- Call `stop` on the same unit `n` times in a row; the results are listed in
call order. -/
def stopRepeated (w : World) (sc : systemdClient) (unit : GoString) :
    Nat → Trace → List (Option GoError) × Trace
  | 0, t => ([], t)
  | n + 1, t =>
    let (r, t1) := systemdClient.stop w sc unit t
    let (rs, t2) := stopRepeated w sc unit n t1
    (r :: rs, t2)

/-! ## install_gpu_step.go -/

/-- The struct `installGPUStep`. -/
structure installGPUStep where
  NvidiaDriverVersion : GoString
  NvidiaDriverMD5Sum : GoString
  NvidiaInstallDirHost : GoString
  NvidiaInstallerContainer : GoString
  GCSDepsPrefix : GoString
  deriving DecidableEq, Repr

/-- The method `installGPUStep.validate`.  The receiver is a pointer; the step
after the call is returned next to the error. -/
def installGPUStep.validate (s : installGPUStep) : Option GoError × installGPUStep :=
  if s.NvidiaDriverVersion = [] then
    (some (GoError.new "invalid args: NvidiaDriverVersion is required in InstallGPU"), s)
  else if s.NvidiaInstallerContainer = [] then
    (some (GoError.new "invalid args: NvidiaInstallerContainer is required in InstallGPU"), s)
  else (none, s)

/-- The method `installGPUStep.setDefaults`; returns the step after the call. -/
def installGPUStep.setDefaults (s : installGPUStep) : installGPUStep :=
  if s.NvidiaInstallDirHost = [] then
    { s with NvidiaInstallDirHost := bytes "/var/lib/nvidia" }
  else s

/-- The method `installGPUStep.setupInstallDir`. -/
def installGPUStep.setupInstallDir (w : World) (s : installGPUStep) (mountCmd : GoString)
    (_dockerClient : docker) (t : Trace) : Option GoError × Trace :=
  match (w.mkdir t s.NvidiaInstallDirHost 0o755,
      t ++ [Action.mkdirAll s.NvidiaInstallDirHost 0o755]) with
  | (some err, t1) => (some err, t1)
  | (none, t1) =>
    match runCommand w [mountCmd, bytes "--bind", s.NvidiaInstallDirHost, s.NvidiaInstallDirHost]
        [] none t1 with
    | (some err, t2) =>
      (some (GoError.errorfWrap "error bind mounting %q: %v" [s.NvidiaInstallDirHost] err), t2)
    | (none, t2) =>
      match runCommand w [mountCmd, bytes "-o", bytes "remount,exec", s.NvidiaInstallDirHost]
          [] none t2 with
      | (some err, t3) =>
        (some (GoError.errorfWrap "error remounting %q as executable: %v"
          [s.NvidiaInstallDirHost] err), t3)
      | (none, t3) => (none, t3)

/-- The local variable `downloadURL` of `runInstaller`. -/
def installGPUStep.downloadURL (s : installGPUStep) : GoString :=
  if s.GCSDepsPrefix ≠ [] then
    bytes "https://storage.googleapis.com/" ++ trimPrefix s.GCSDepsPrefix (bytes "gs://")
  else []

/-- The local variable `gpuInstallerDownloadURL` of `runInstaller`. -/
def installGPUStep.gpuInstallerDownloadURL (s : installGPUStep) : GoString :=
  if hasSuffix s.NvidiaDriverVersion (bytes ".run") ∧ s.downloadURL ≠ [] then
    s.downloadURL ++ bytes "/" ++ s.NvidiaDriverVersion
  else []

/-- The argument list passed to `dockerClient.run` by `runInstaller`. -/
def installGPUStep.installerArgs (s : installGPUStep) : List GoString :=
  [ bytes "--rm",
    bytes "--privileged",
    bytes "--net=host",
    bytes "--pid=host",
    bytes "--volume", s.NvidiaInstallDirHost ++ bytes ":/usr/local/nvidia",
    bytes "--volume", bytes "/dev:/dev",
    bytes "--volume", bytes "/:/root",
    bytes "-e", bytes "NVIDIA_DRIVER_VERSION",
    bytes "-e", bytes "NVIDIA_DRIVER_MD5SUM",
    bytes "-e", bytes "NVIDIA_INSTALL_DIR_HOST",
    bytes "-e", bytes "COS_NVIDIA_INSTALLER_CONTAINER",
    bytes "-e", bytes "NVIDIA_INSTALL_DIR_CONTAINER",
    bytes "-e", bytes "ROOT_MOUNT_DIR",
    bytes "-e", bytes "COS_DOWNLOAD_GCS",
    bytes "-e", bytes "GPU_INSTALLER_DOWNLOAD_URL",
    s.NvidiaInstallerContainer ]

/-- The environment overlay passed to `dockerClient.run` by `runInstaller`. -/
def installGPUStep.installerEnv (s : installGPUStep) (driverVersion : GoString) :
    List GoString :=
  [ bytes "NVIDIA_DRIVER_VERSION=" ++ driverVersion,
    bytes "NVIDIA_DRIVER_MD5SUM=" ++ s.NvidiaDriverMD5Sum,
    bytes "NVIDIA_INSTALL_DIR_HOST=" ++ s.NvidiaInstallDirHost,
    bytes "COS_NVIDIA_INSTALLER_CONTAINER=" ++ s.NvidiaInstallerContainer,
    bytes "NVIDIA_INSTALL_DIR_CONTAINER=/usr/local/nvidia",
    bytes "ROOT_MOUNT_DIR=/root",
    bytes "COS_DOWNLOAD_GCS=" ++ s.downloadURL,
    bytes "GPU_INSTALLER_DOWNLOAD_URL=" ++ s.gpuInstallerDownloadURL ]

/-- The method `installGPUStep.runInstaller`. -/
def installGPUStep.runInstaller (w : World) (s : installGPUStep) (dockerClient : docker)
    (driverVersion : GoString) (t : Trace) : Option GoError × Trace :=
  match dockerClient.run w s.installerArgs (s.installerEnv driverVersion) t with
  | (some err, t1) =>
    let logPath := filepathJoin [s.NvidiaInstallDirHost, bytes "nvidia-installer.log"]
    match (w.openFile t1 logPath, t1 ++ [Action.openFile logPath]) with
    | (some _openErr, t2) => (some err, t2)
    | (none, t2) =>
      match (w.copy t2 logPath, t2 ++ [Action.copyToStdout logPath]) with
      | (some _copyErr, t3) => (some err, t3 ++ [Action.closeFile logPath])
      | (none, t3) => (some err, t3 ++ [Action.closeFile logPath])
  | (none, t1) => (none, t1)

/-- Replace every NUL byte by a space: the loop over `data` in `processExists`. -/
def replaceNul (data : List Nat) : List Nat :=
  data.map (fun b => if b = 0x00 then 0x20 else b)

/-- The loop `for _, file := range files` of `processExists`. -/
def processExistsLoop (w : World) (name : GoString) :
    List GoString → Trace → (Bool × Option GoError) × Trace
  | [], t => ((false, none), t)
  | file :: files, t =>
    match (w.read t file, t ++ [Action.readFile file]) with
    | (Except.error err, t1) => ((false, some err), t1)
    | (Except.ok data, t1) =>
      if stringsContains (replaceNul data) name then ((true, none), t1)
      else processExistsLoop w name files t1

/-- The function `processExists`. -/
def processExists (w : World) (rootDir name : GoString) (t : Trace) :
    (Bool × Option GoError) × Trace :=
  let pattern := filepathJoin [rootDir, bytes "proc", bytes "*", bytes "cmdline"]
  match (w.globFiles t pattern, t ++ [Action.glob pattern]) with
  | (Except.error err, t1) => ((false, some err), t1)
  | (Except.ok files, t1) => processExistsLoop w name files t1

/-- The driver version derived at the start of `run`: `Except.error` is the
early return on a malformed installer name. -/
def installGPUStep.deriveDriverVersion (s : installGPUStep) : Except GoError GoString :=
  if hasSuffix s.NvidiaDriverVersion (bytes ".run") then
    let fields := fieldsFunc (trimSuffix s.NvidiaDriverVersion (bytes ".run")) (fun r => r == 45)
    if fields.length < 4 then
      Except.error (GoError.errorf "Malformed nvidia installer: %q" [s.NvidiaDriverVersion])
    else Except.ok (fields.getD 3 [])
  else Except.ok s.NvidiaDriverVersion

/-- The method `installGPUStep.run`.  The receiver is a pointer and `setDefaults`
writes through it, so the step after the call is returned as well.  The
argument `runState` is never used by the body. -/
def installGPUStep.run {State : Type} (w : World) (s : installGPUStep) (_runState : State)
    (deps : Deps) (t : Trace) : Option GoError × installGPUStep × Trace :=
  match s.validate with
  | (some err, s) => (some err, s, t)
  | (none, s) =>
    let s := s.setDefaults
    let dockerClient : docker := { dockerCmd := deps.DockerCmd, journalctl := deps.JournalctlCmd }
    match s.deriveDriverVersion with
    | Except.error err => (some err, s, t)
    | Except.ok driverVersion =>
      match s.setupInstallDir w deps.MountCmd dockerClient t with
      | (some err, t1) => (some err, s, t1)
      | (none, t1) =>
        match dockerClient.pull w [s.NvidiaInstallerContainer] t1 with
        | (some err, t2) => (some err, s, t2)
        | (none, t2) =>
          match s.runInstaller w dockerClient driverVersion t2 with
          | (some err, t3) => (some err, s, t3)
          | (none, t3) =>
            match runCommand w [filepathJoin [s.NvidiaInstallDirHost, bytes "bin", bytes "nvidia-smi"]]
                [] none t3 with
            | (some err, t4) => (some err, s, t4)
            | (none, t4) =>
              match processExists w deps.RootDir (bytes "nvidia-persistenced") t4 with
              | ((_, some err), t5) =>
                (some (GoError.errorfWrap
                  "error searching for process \"nvidia-persistenced\": %v" [] err), s, t5)
              | ((running, none), t5) =>
                match (if !running then
                    runCommand w [filepathJoin [s.NvidiaInstallDirHost, bytes "bin",
                      bytes "nvidia-persistenced"], bytes "--verbose"] [] none t5
                  else (none, t5)) with
                | (some err, t6) => (some err, s, t6)
                | (none, t6) =>
                  let path := filepathJoin [deps.RootDir, bytes "proc", bytes "sys",
                    bytes "kernel", bytes "softlockup_panic"]
                  match (w.write t6 path (bytes "1") 0o644,
                      t6 ++ [Action.writeFile path (bytes "1") 0o644]) with
                  | (some err, t7) => (some err, s, t7)
                  | (none, t7) => (none, s, t7)

/-! ## Auxiliary definitions for the proofs -/

/-- The scan of a fixed process table, without the history: the value that
`processExistsLoop` computes when reading `file` always yields `content file`. -/
def scanTable (content : GoString → Except GoError (List Nat)) (name : GoString) :
    List GoString → Bool × Option GoError
  | [] => (false, none)
  | file :: files =>
    match content file with
    | Except.error err => (false, some err)
    | Except.ok data =>
      if stringsContains (replaceNul data) name then (true, none)
      else scanTable content name files

/-! ## Concrete worlds and inputs used to instantiate the theorems -/

/-- A world in which every interaction succeeds; the process table is empty. -/
def quietWorld : World where
  environ := []
  command := fun _ _ _ _ => none
  exec := fun _ _ => none
  mkdir := fun _ _ _ => none
  globFiles := fun _ _ => Except.ok []
  read := fun _ _ => Except.ok []
  write := fun _ _ _ _ => none
  openFile := fun _ _ => none
  copy := fun _ _ => none

/-- A world in which every external command and every `exec` query fails with
`external 1`; file operations succeed. -/
def failingWorld : World where
  environ := []
  command := fun _ _ _ _ => some (GoError.external 1)
  exec := fun _ _ => some (GoError.external 1)
  mkdir := fun _ _ _ => none
  globFiles := fun _ _ => Except.ok []
  read := fun _ _ => Except.ok []
  write := fun _ _ _ _ => none
  openFile := fun _ _ => none
  copy := fun _ _ => none

/-- A world in which an external command fails with `external 7` until two
commands have been run, and succeeds from then on. -/
def flakyWorld : World where
  environ := []
  command := fun t _ _ _ => if t.length < 2 then some (GoError.external 7) else none
  exec := fun _ _ => none
  mkdir := fun _ _ _ => none
  globFiles := fun _ _ => Except.ok []
  read := fun _ _ => Except.ok []
  write := fun _ _ _ _ => none
  openFile := fun _ _ => none
  copy := fun _ _ => none

/-- A world in which every external command fails with `external 1` and no file
can be opened (`external 2`). -/
def noLogWorld : World where
  environ := []
  command := fun _ _ _ _ => some (GoError.external 1)
  exec := fun _ _ => some (GoError.external 1)
  mkdir := fun _ _ _ => none
  globFiles := fun _ _ => Except.ok []
  read := fun _ _ => Except.ok []
  write := fun _ _ _ _ => none
  openFile := fun _ _ => some (GoError.external 2)
  copy := fun _ _ => none

/-- A world whose process table is fixed: the glob yields `files` and reading a
file yields `content file`, whatever the history; everything else succeeds. -/
def tableWorld (files : List GoString) (content : GoString → Except GoError (List Nat)) :
    World where
  environ := []
  command := fun _ _ _ _ => none
  exec := fun _ _ => none
  mkdir := fun _ _ _ => none
  globFiles := fun _ _ => Except.ok files
  read := fun _ f => content f
  write := fun _ _ _ _ => none
  openFile := fun _ _ => none
  copy := fun _ _ => none

/-- A process table with two entries: `/proc/1/cmdline` cannot be read
(`external 13`), `/proc/2/cmdline` holds `nvidia-persistenced --verbose` with
NUL separators; any other path reads as empty. -/
def mixedTable (f : GoString) : Except GoError (List Nat) :=
  if f = bytes "/proc/1/cmdline" then Except.error (GoError.external 13)
  else if f = bytes "/proc/2/cmdline" then
    Except.ok (bytes "/usr/bin/nvidia-persistenced" ++ [0] ++ bytes "--verbose" ++ [0])
  else Except.ok []

/-- A readable process table: `/proc/1/cmdline` holds `sleep 60` and
`/proc/2/cmdline` holds `nvidia-persistenced --verbose`, NUL separated. -/
def readableTable (f : GoString) : List Nat :=
  if f = bytes "/proc/1/cmdline" then bytes "sleep" ++ [0] ++ bytes "60" ++ [0]
  else if f = bytes "/proc/2/cmdline" then
    bytes "/usr/bin/nvidia-persistenced" ++ [0] ++ bytes "--verbose" ++ [0]
  else []

/-- A world in which the only failing interaction is the sanity check
`/var/lib/nvidia/bin/nvidia-smi`, which fails with `external 9`. -/
def smiFailWorld : World where
  environ := []
  command := fun _ argv _ _ =>
    if argv = [bytes "/var/lib/nvidia/bin/nvidia-smi"] then some (GoError.external 9) else none
  exec := fun _ _ => none
  mkdir := fun _ _ _ => none
  globFiles := fun _ _ => Except.ok []
  read := fun _ _ => Except.ok []
  write := fun _ _ _ _ => none
  openFile := fun _ _ => none
  copy := fun _ _ => none

/-- A world in which the only failing interaction is the creation of a
directory, which fails with `external 5`. -/
def mkdirFailWorld : World where
  environ := []
  command := fun _ _ _ _ => none
  exec := fun _ _ => none
  mkdir := fun _ _ _ => some (GoError.external 5)
  globFiles := fun _ _ => Except.ok []
  read := fun _ _ => Except.ok []
  write := fun _ _ _ _ => none
  openFile := fun _ _ => none
  copy := fun _ _ => none

/-- A world in which the only failing interaction is the glob, which fails with
`external 3`. -/
def globFailWorld : World where
  environ := []
  command := fun _ _ _ _ => none
  exec := fun _ _ => none
  mkdir := fun _ _ _ => none
  globFiles := fun _ _ => Except.error (GoError.external 3)
  read := fun _ _ => Except.ok []
  write := fun _ _ _ _ => none
  openFile := fun _ _ => none
  copy := fun _ _ => none

/-- The command line of the installer's `docker run` in the end-to-end scenario. -/
def sampleInstallerArgs : List GoString :=
  [ bytes "docker", bytes "run",
    bytes "--rm", bytes "--privileged", bytes "--net=host", bytes "--pid=host",
    bytes "--volume", bytes "/var/lib/nvidia:/usr/local/nvidia",
    bytes "--volume", bytes "/dev:/dev",
    bytes "--volume", bytes "/:/root",
    bytes "-e", bytes "NVIDIA_DRIVER_VERSION",
    bytes "-e", bytes "NVIDIA_DRIVER_MD5SUM",
    bytes "-e", bytes "NVIDIA_INSTALL_DIR_HOST",
    bytes "-e", bytes "COS_NVIDIA_INSTALLER_CONTAINER",
    bytes "-e", bytes "NVIDIA_INSTALL_DIR_CONTAINER",
    bytes "-e", bytes "ROOT_MOUNT_DIR",
    bytes "-e", bytes "COS_DOWNLOAD_GCS",
    bytes "-e", bytes "GPU_INSTALLER_DOWNLOAD_URL",
    bytes "gcr.io/example/gpu-installer:latest" ]

/-- The environment overlay of the installer's `docker run` in the end-to-end
scenario. -/
def sampleInstallerEnv : List GoString :=
  [ bytes "NVIDIA_DRIVER_VERSION=450.51.06",
    bytes "NVIDIA_DRIVER_MD5SUM=abc123",
    bytes "NVIDIA_INSTALL_DIR_HOST=/var/lib/nvidia",
    bytes "COS_NVIDIA_INSTALLER_CONTAINER=gcr.io/example/gpu-installer:latest",
    bytes "NVIDIA_INSTALL_DIR_CONTAINER=/usr/local/nvidia",
    bytes "ROOT_MOUNT_DIR=/root",
    bytes "COS_DOWNLOAD_GCS=",
    bytes "GPU_INSTALLER_DOWNLOAD_URL=" ]

/-- Production dependencies. -/
def sampleDeps : Deps where
  DockerCmd := bytes "docker"
  JournalctlCmd := bytes "journalctl"
  MountCmd := bytes "mount"
  SystemctlCmd := bytes "systemctl"
  RootDir := bytes "/"

/-- The docker client built from `sampleDeps`. -/
def sampleDocker : docker where
  dockerCmd := bytes "docker"
  journalctl := bytes "journalctl"

/-- The step of the end-to-end scenario. -/
def sampleStep : installGPUStep where
  NvidiaDriverVersion := bytes "450.51.06"
  NvidiaDriverMD5Sum := bytes "abc123"
  NvidiaInstallDirHost := []
  NvidiaInstallerContainer := bytes "gcr.io/example/gpu-installer:latest"
  GCSDepsPrefix := []

/-- A step that names an installer archive and a dependency bucket. -/
def gcsStep : installGPUStep where
  NvidiaDriverVersion := bytes "NVIDIA-Linux-x86_64-450.51.06.run"
  NvidiaDriverMD5Sum := bytes "abc123"
  NvidiaInstallDirHost := bytes "/var/lib/nvidia"
  NvidiaInstallerContainer := bytes "gcr.io/example/gpu-installer:latest"
  GCSDepsPrefix := bytes "gs://bucket/deps"

/-! ## Lemmas on the retry loop -/

theorem replicate_snoc_history (t : Trace) (a : Action) (j : Nat) :
    t ++ [a] ++ List.replicate j a = t ++ List.replicate (j + 1) a := by
  simp [List.replicate_succ]

theorem pullLoop_first_success (w : World) (cmd : List GoString) (k : Nat) :
    ∀ (m : Nat) (err : Option GoError) (t : Trace),
      (∀ j, j < k →
        w.command (t ++ List.replicate j (Action.runCommand cmd [] none)) cmd [] none ≠ none) →
      w.command (t ++ List.replicate k (Action.runCommand cmd [] none)) cmd [] none = none →
      docker.pullLoop w cmd (k + 1 + m) err t
        = Sum.inl (t ++ List.replicate (k + 1) (Action.runCommand cmd [] none)) := by
  induction k with
  | zero =>
    intro m err t _ h0
    have h0' : w.command t cmd [] none = none := by simpa using h0
    have e : 0 + 1 + m = m + 1 := by omega
    rw [e]
    simp [docker.pullLoop, runCommand, h0']
  | succ k ih =>
    intro m err t hfail hk
    have h0 : w.command t cmd [] none ≠ none := by simpa using hfail 0 (by omega)
    obtain ⟨e0, he0⟩ := Option.ne_none_iff_exists'.mp h0
    have e : k + 1 + 1 + m = (k + 1 + m) + 1 := by omega
    rw [e]
    simp only [docker.pullLoop, runCommand, he0]
    rw [ih m (some e0) (t ++ [Action.runCommand cmd [] none])]
    · rw [replicate_snoc_history]
    · intro j hj
      rw [replicate_snoc_history]
      exact hfail (j + 1) (by omega)
    · rw [replicate_snoc_history]
      exact hk

theorem pullLoop_all_fail (w : World) (cmd : List GoString) (n : Nat) :
    ∀ (err : Option GoError) (t : Trace),
      (∀ j, j < n + 1 →
        w.command (t ++ List.replicate j (Action.runCommand cmd [] none)) cmd [] none ≠ none) →
      docker.pullLoop w cmd (n + 1) err t
        = Sum.inr (w.command (t ++ List.replicate n (Action.runCommand cmd [] none)) cmd [] none,
            t ++ List.replicate (n + 1) (Action.runCommand cmd [] none)) := by
  induction n with
  | zero =>
    intro err t hfail
    have h0 : w.command t cmd [] none ≠ none := by simpa using hfail 0 (by omega)
    obtain ⟨e0, he0⟩ := Option.ne_none_iff_exists'.mp h0
    simp [docker.pullLoop, runCommand, he0]
  | succ n ih =>
    intro err t hfail
    have h0 : w.command t cmd [] none ≠ none := by simpa using hfail 0 (by omega)
    obtain ⟨e0, he0⟩ := Option.ne_none_iff_exists'.mp h0
    simp only [docker.pullLoop, runCommand, he0]
    have := ih (some e0) (t ++ [Action.runCommand cmd [] none]) (by
      intro j hj
      rw [replicate_snoc_history]
      exact hfail (j + 1) (by omega))
    simp only [docker.pullLoop, runCommand] at this
    rw [this, replicate_snoc_history, replicate_snoc_history]

/-! ## Lemmas on the process scan -/

theorem replaceNul_eq_map_space (data : List Nat) :
    replaceNul data = data.map (fun b => if b = 0 then 32 else b) :=
  rfl

theorem stringsContains_iff_contiguous (s sub : GoString) :
    stringsContains s sub = true ↔ sub <:+: s := by
  induction s with
  | nil =>
    cases sub <;> simp [stringsContains]
  | cons c cs ih =>
    rw [stringsContains, Bool.or_eq_true, ih, List.infix_cons_iff, List.isPrefixOf_iff_prefix]

theorem processExistsLoop_eq_scanTable (w : World) (name : GoString)
    (content : GoString → Except GoError (List Nat)) (files : List GoString) :
    ∀ t, (∀ t0 f, f ∈ files → w.read t0 f = content f) →
      (processExistsLoop w name files t).1 = scanTable content name files := by
  induction files with
  | nil => intro t _; rfl
  | cons f fs ih =>
    intro t hread
    have hf := hread t f (List.mem_cons_self _ _)
    unfold processExistsLoop scanTable
    rw [hf]
    cases hc : content f with
    | error e => simp
    | ok d =>
      by_cases hm : stringsContains (replaceNul d) name = true
      · simp [hm]
      · simp only [hm]
        exact ih _ (fun t0 g hg => hread t0 g (List.mem_cons_of_mem _ hg))

theorem processExists_eq_scanTable (w : World) (rootDir name : GoString)
    (content : GoString → Except GoError (List Nat)) (files : List GoString) (t : Trace)
    (hglob : w.globFiles t (filepathJoin [rootDir, bytes "proc", bytes "*", bytes "cmdline"])
      = Except.ok files)
    (hread : ∀ t0 f, f ∈ files → w.read t0 f = content f) :
    (processExists w rootDir name t).1 = scanTable content name files := by
  unfold processExists
  simp only [hglob]
  exact processExistsLoop_eq_scanTable w name content files _ hread

theorem scanTable_readable (content : GoString → List Nat) (name : GoString)
    (files : List GoString) :
    scanTable (fun f => Except.ok (content f)) name files
      = (files.any (fun f => stringsContains (replaceNul (content f)) name), none) := by
  induction files with
  | nil => rfl
  | cons f fs ih =>
    unfold scanTable
    by_cases hm : stringsContains (replaceNul (content f)) name = true
    · simp [hm]
    · simp [hm, ih]

theorem scanTable_error_iff (content : GoString → Except GoError (List Nat)) (name : GoString)
    (files : List GoString) :
    (scanTable content name files).2 ≠ none ↔
      ∃ pre f post, files = pre ++ f :: post ∧ (∃ e, content f = Except.error e) ∧
        ∀ g ∈ pre, ∀ d, content g = Except.ok d → ¬ name <:+: replaceNul d := by
  induction files with
  | nil => simp [scanTable]
  | cons f fs ih =>
    unfold scanTable
    cases hc : content f with
    | error e =>
      simp only [ne_eq, reduceCtorEq, not_false_eq_true, true_iff]
      exact ⟨[], f, fs, rfl, ⟨e, hc⟩, by simp⟩
    | ok d =>
      by_cases hm : stringsContains (replaceNul d) name = true
      · simp only [hm, if_true, ne_eq, not_true_eq_false, false_iff]
        rintro ⟨pre, g, post, hsplit, ⟨e, he⟩, hpre⟩
        cases pre with
        | nil =>
          simp only [List.nil_append, List.cons.injEq] at hsplit
          rw [← hsplit.1, hc] at he
          cases he
        | cons p ps =>
          simp only [List.cons_append, List.cons.injEq] at hsplit
          have := hpre p (List.mem_cons_self _ _) d (by rw [← hsplit.1]; exact hc)
          exact this ((stringsContains_iff_contiguous _ _).mp hm)
      · simp only [hm, Bool.false_eq_true, if_false]
        rw [ih]
        constructor
        · rintro ⟨pre, g, post, hsplit, he, hpre⟩
          refine ⟨f :: pre, g, post, by simp [hsplit], he, ?_⟩
          intro x hx dx hdx
          rcases List.mem_cons.mp hx with rfl | hx
          · rw [hc] at hdx
            cases hdx
            exact fun h => hm ((stringsContains_iff_contiguous _ _).mpr h)
          · exact hpre x hx dx hdx
        · rintro ⟨pre, g, post, hsplit, ⟨e, he⟩, hpre⟩
          cases pre with
          | nil =>
            simp only [List.nil_append, List.cons.injEq] at hsplit
            rw [← hsplit.1, hc] at he
            cases he
          | cons p ps =>
            simp only [List.cons_append, List.cons.injEq] at hsplit
            exact ⟨ps, g, post, hsplit.2, ⟨e, he⟩,
              fun x hx => hpre x (List.mem_cons_of_mem _ hx)⟩

/-! ## Lemmas on the string functions -/

theorem hasSuffix_iff (s suf : GoString) : hasSuffix s suf = true ↔ suf <:+ s := by
  unfold hasSuffix
  exact List.isSuffixOf_iff_suffix

theorem hasPrefix_iff (s pre : GoString) : hasPrefix s pre = true ↔ pre <+: s := by
  unfold hasPrefix
  exact List.isPrefixOf_iff_prefix

theorem trimPrefix_append (pre r : GoString) : trimPrefix (pre ++ r) pre = r := by
  have h : hasPrefix (pre ++ r) pre = true := (hasPrefix_iff _ _).mpr (List.prefix_append _ _)
  simp [trimPrefix, h]

theorem trimSuffix_append (body suf : GoString) : trimSuffix (body ++ suf) suf = body := by
  have h : hasSuffix (body ++ suf) suf = true := (hasSuffix_iff _ _).mpr (List.suffix_append _ _)
  simp [trimSuffix, h]

theorem trimPrefix_of_not_leading (s pre : GoString) (h : ¬ pre <+: s) : trimPrefix s pre = s := by
  have h2 : ¬ hasPrefix s pre = true := fun hp => h ((hasPrefix_iff _ _).mp hp)
  simp [trimPrefix, h2]

theorem fieldsFuncAux_run (f : Nat → Bool) (x : List Nat) :
    ∀ (rest cur : List Nat), (∀ c ∈ x, f c = false) →
      fieldsFuncAux f (x ++ rest) cur = fieldsFuncAux f rest (x.reverse ++ cur) := by
  induction x with
  | nil => intro rest cur _; rfl
  | cons c cs ih =>
    intro rest cur hx
    have hc : f c = false := hx c (List.mem_cons_self _ _)
    rw [List.cons_append, fieldsFuncAux]
    simp only [hc, Bool.false_eq_true, if_false]
    rw [ih rest (c :: cur) (fun y hy => hx y (List.mem_cons_of_mem _ hy))]
    simp

theorem fieldsFunc_field_then_sep (f : Nat → Bool) (x rest : List Nat) (sep : Nat)
    (hx : ∀ c ∈ x, f c = false) (hne : x ≠ []) (hsep : f sep = true) :
    fieldsFunc (x ++ sep :: rest) f = x :: fieldsFunc rest f := by
  unfold fieldsFunc
  rw [fieldsFuncAux_run f x _ _ hx, fieldsFuncAux]
  simp [hsep, hne]

theorem fieldsFunc_last_field (f : Nat → Bool) (x : List Nat)
    (hx : ∀ c ∈ x, f c = false) (hne : x ≠ []) :
    fieldsFunc x f = [x] := by
  unfold fieldsFunc
  have h := fieldsFuncAux_run f x [] [] hx
  rw [List.append_nil] at h
  rw [h, fieldsFuncAux]
  simp [hne]

theorem fieldsFunc_fourth (a b c d rest : List Nat)
    (ha : ∀ x ∈ a, x ≠ 45) (hb : ∀ x ∈ b, x ≠ 45) (hc : ∀ x ∈ c, x ≠ 45) (hd : ∀ x ∈ d, x ≠ 45)
    (hane : a ≠ []) (hbne : b ≠ []) (hcne : c ≠ []) (hdne : d ≠ [])
    (hrest : rest = [] ∨ rest.head? = some 45) :
    (fieldsFunc (a ++ [45] ++ b ++ [45] ++ c ++ [45] ++ d ++ rest) (fun r => r == 45))[3]?
      = some d := by
  have conv : ∀ l : List Nat, (∀ x ∈ l, x ≠ 45) → ∀ x ∈ l, (fun r => r == 45) x = false := by
    intro l hl x hx
    simpa using hl x hx
  have e : a ++ [45] ++ b ++ [45] ++ c ++ [45] ++ d ++ rest
      = a ++ 45 :: (b ++ 45 :: (c ++ 45 :: (d ++ rest))) := by simp
  rw [e, fieldsFunc_field_then_sep _ a _ 45 (conv a ha) hane (by simp),
    fieldsFunc_field_then_sep _ b _ 45 (conv b hb) hbne (by simp),
    fieldsFunc_field_then_sep _ c _ 45 (conv c hc) hcne (by simp)]
  rcases hrest with rfl | hr
  · rw [List.append_nil, fieldsFunc_last_field _ d (conv d hd) hdne]
    rfl
  · cases rest with
    | nil => simp at hr
    | cons r rs =>
      simp only [List.head?_cons, Option.some.injEq] at hr
      subst hr
      rw [fieldsFunc_field_then_sep _ d _ 45 (conv d hd) hdne (by simp)]
      simp

theorem validate_ok (s : installGPUStep) (h : (s.validate).1 = none) : s.validate = (none, s) := by
  unfold installGPUStep.validate at h ⊢
  by_cases h1 : s.NvidiaDriverVersion = []
  · simp [h1] at h
  · by_cases h2 : s.NvidiaInstallerContainer = []
    · simp [h1, h2] at h
    · simp [h1, h2]

theorem setDefaults_version (s : installGPUStep) :
    s.setDefaults.NvidiaDriverVersion = s.NvidiaDriverVersion := by
  unfold installGPUStep.setDefaults
  split_ifs
  · rfl
  · rfl

theorem setDefaults_container (s : installGPUStep) :
    s.setDefaults.NvidiaInstallerContainer = s.NvidiaInstallerContainer := by
  unfold installGPUStep.setDefaults
  split_ifs
  · rfl
  · rfl

theorem runInstaller_first_action (w : World) (s : installGPUStep) (d : docker)
    (driverVersion : GoString) (t : Trace) :
    ∃ rest, (s.runInstaller w d driverVersion t).2
      = t ++ Action.runCommand (d.dockerCmd :: bytes "run" :: s.installerArgs) []
          (some (w.environ ++ s.installerEnv driverVersion)) :: rest := by
  simp only [installGPUStep.runInstaller, docker.run, runCommand, List.cons_append,
    List.nil_append]
  cases h : w.command t (d.dockerCmd :: bytes "run" :: s.installerArgs) []
      (some (w.environ ++ s.installerEnv driverVersion)) with
  | none => exact ⟨[], by simp⟩
  | some e =>
    simp only
    cases h2 : w.openFile
        (t ++ [Action.runCommand (d.dockerCmd :: bytes "run" :: s.installerArgs) []
          (some (w.environ ++ s.installerEnv driverVersion))])
        (filepathJoin [s.NvidiaInstallDirHost, bytes "nvidia-installer.log"]) with
    | some oe =>
      exact ⟨[Action.openFile (filepathJoin [s.NvidiaInstallDirHost, bytes "nvidia-installer.log"])],
        by simp⟩
    | none =>
      simp only
      cases w.copy _ _ with
      | some ce =>
        exact ⟨[Action.openFile (filepathJoin [s.NvidiaInstallDirHost, bytes "nvidia-installer.log"]),
          Action.copyToStdout (filepathJoin [s.NvidiaInstallDirHost, bytes "nvidia-installer.log"]),
          Action.closeFile (filepathJoin [s.NvidiaInstallDirHost, bytes "nvidia-installer.log"])],
          by simp⟩
      | none =>
        exact ⟨[Action.openFile (filepathJoin [s.NvidiaInstallDirHost, bytes "nvidia-installer.log"]),
          Action.copyToStdout (filepathJoin [s.NvidiaInstallDirHost, bytes "nvidia-installer.log"]),
          Action.closeFile (filepathJoin [s.NvidiaInstallDirHost, bytes "nvidia-installer.log"])],
          by simp⟩

theorem deriveDriverVersion_of_field (s : installGPUStep) (body f : GoString)
    (hv : s.NvidiaDriverVersion = body ++ bytes ".run")
    (hfield : (fieldsFunc body (fun r => r == 45))[3]? = some f) :
    s.setDefaults.deriveDriverVersion = Except.ok f := by
  have hs : hasSuffix (body ++ bytes ".run") (bytes ".run") = true :=
    (hasSuffix_iff _ _).mpr (List.suffix_append _ _)
  obtain ⟨hlen, hget⟩ := List.getElem?_eq_some.mp hfield
  have hnot : ¬ (fieldsFunc body (fun r => r == 45)).length < 4 := by omega
  unfold installGPUStep.deriveDriverVersion
  rw [setDefaults_version, hv]
  simp only [hs, trimSuffix_append, if_true, hnot, if_false]
  rw [List.getD_eq_getElem _ _ hlen, hget]

theorem installerEnv_version_entry (s : installGPUStep) (driverVersion : GoString) :
    (s.installerEnv driverVersion).filter
        (fun x => hasPrefix x (bytes "NVIDIA_DRIVER_VERSION="))
      = [bytes "NVIDIA_DRIVER_VERSION=" ++ driverVersion] := by
  have hk : bytes "NVIDIA_DRIVER_VERSION="
      = [78, 86, 73, 68, 73, 65, 95, 68, 82, 73, 86, 69, 82, 95, 86, 69, 82, 83, 73, 79, 78, 61] := by
    decide
  have h2 : bytes "NVIDIA_DRIVER_MD5SUM="
      = [78, 86, 73, 68, 73, 65, 95, 68, 82, 73, 86, 69, 82, 95, 77, 68, 53, 83, 85, 77, 61] := by
    decide
  have h3 : bytes "NVIDIA_INSTALL_DIR_HOST="
      = 78 :: 86 :: 73 :: 68 :: 73 :: 65 :: 95 :: 73 :: (bytes "NSTALL_DIR_HOST=") := by decide
  have h4 : bytes "COS_NVIDIA_INSTALLER_CONTAINER=" = 67 :: bytes "OS_NVIDIA_INSTALLER_CONTAINER=" := by
    decide
  have h5 : bytes "NVIDIA_INSTALL_DIR_CONTAINER=/usr/local/nvidia"
      = 78 :: 86 :: 73 :: 68 :: 73 :: 65 :: 95 :: 73 :: (bytes "NSTALL_DIR_CONTAINER=/usr/local/nvidia") := by
    decide
  have h6 : bytes "ROOT_MOUNT_DIR=/root" = 82 :: bytes "OOT_MOUNT_DIR=/root" := by decide
  have h7 : bytes "COS_DOWNLOAD_GCS=" = 67 :: bytes "OS_DOWNLOAD_GCS=" := by decide
  have h8 : bytes "GPU_INSTALLER_DOWNLOAD_URL=" = 71 :: bytes "PU_INSTALLER_DOWNLOAD_URL=" := by decide
  unfold installGPUStep.installerEnv
  rw [h2, h3, h4, h5, h6, h7, h8, hk]
  simp [hasPrefix, List.filter, List.isPrefixOf]

theorem run_of_valid {State : Type} (w : World) (s : installGPUStep) (st : State) (deps : Deps)
    (t : Trace) (dv : GoString) (hvalid : (s.validate).1 = none)
    (hdv : s.setDefaults.deriveDriverVersion = Except.ok dv) :
    s.run w st deps t =
      match s.setDefaults.setupInstallDir w deps.MountCmd
          { dockerCmd := deps.DockerCmd, journalctl := deps.JournalctlCmd } t with
      | (some err, t1) => (some err, s.setDefaults, t1)
      | (none, t1) =>
        match docker.pull w { dockerCmd := deps.DockerCmd, journalctl := deps.JournalctlCmd }
            [s.setDefaults.NvidiaInstallerContainer] t1 with
        | (some err, t2) => (some err, s.setDefaults, t2)
        | (none, t2) =>
          match s.setDefaults.runInstaller w
              { dockerCmd := deps.DockerCmd, journalctl := deps.JournalctlCmd } dv t2 with
          | (some err, t3) => (some err, s.setDefaults, t3)
          | (none, t3) =>
            match runCommand w
                [filepathJoin [s.setDefaults.NvidiaInstallDirHost, bytes "bin", bytes "nvidia-smi"]]
                [] none t3 with
            | (some err, t4) => (some err, s.setDefaults, t4)
            | (none, t4) =>
              match processExists w deps.RootDir (bytes "nvidia-persistenced") t4 with
              | ((_, some err), t5) =>
                (some (GoError.errorfWrap
                  "error searching for process \"nvidia-persistenced\": %v" [] err),
                  s.setDefaults, t5)
              | ((running, none), t5) =>
                match (if !running then
                    runCommand w [filepathJoin [s.setDefaults.NvidiaInstallDirHost, bytes "bin",
                      bytes "nvidia-persistenced"], bytes "--verbose"] [] none t5
                  else (none, t5)) with
                | (some err, t6) => (some err, s.setDefaults, t6)
                | (none, t6) =>
                  match (w.write t6 (filepathJoin [deps.RootDir, bytes "proc", bytes "sys",
                        bytes "kernel", bytes "softlockup_panic"]) (bytes "1") 0o644,
                      t6 ++ [Action.writeFile (filepathJoin [deps.RootDir, bytes "proc", bytes "sys",
                        bytes "kernel", bytes "softlockup_panic"]) (bytes "1") 0o644]) with
                  | (some err, t7) => (some err, s.setDefaults, t7)
                  | (none, t7) => (none, s.setDefaults, t7) := by
  unfold installGPUStep.run
  simp only [validate_ok s hvalid, hdv]

theorem runCommand_extends (w : World) (argv : List GoString) (dir : GoString)
    (env : Option (List GoString)) (t : Trace) : t <+: (runCommand w argv dir env t).2 :=
  ⟨[Action.runCommand argv dir env], rfl⟩

theorem processExistsLoop_extends (w : World) (name : GoString) (files : List GoString) :
    ∀ t, t <+: (processExistsLoop w name files t).2 := by
  induction files with
  | nil => intro t; exact List.prefix_refl t
  | cons f fs ih =>
    intro t
    unfold processExistsLoop
    cases w.read t f with
    | error e => exact ⟨[Action.readFile f], rfl⟩
    | ok d =>
      simp only
      split_ifs
      · exact ⟨[Action.readFile f], rfl⟩
      · exact List.IsPrefix.trans ⟨[Action.readFile f], rfl⟩ (ih _)

theorem processExists_extends (w : World) (rootDir name : GoString) (t : Trace) :
    t <+: (processExists w rootDir name t).2 := by
  simp only [processExists]
  cases h : w.globFiles t (filepathJoin [rootDir, bytes "proc", bytes "*", bytes "cmdline"]) with
  | error e => exact ⟨[Action.glob _], rfl⟩
  | ok files =>
    exact List.IsPrefix.trans ⟨[Action.glob _], rfl⟩ (processExistsLoop_extends w name files _)

theorem run_extends_installer {State : Type} (w : World) (s : installGPUStep) (st : State)
    (deps : Deps) (t t1 t2 : Trace) (dv : GoString) (hvalid : (s.validate).1 = none)
    (hdv : s.setDefaults.deriveDriverVersion = Except.ok dv)
    (hsetup : s.setDefaults.setupInstallDir w deps.MountCmd
      { dockerCmd := deps.DockerCmd, journalctl := deps.JournalctlCmd } t = (none, t1))
    (hpull : docker.pull w { dockerCmd := deps.DockerCmd, journalctl := deps.JournalctlCmd }
      [s.setDefaults.NvidiaInstallerContainer] t1 = (none, t2)) :
    (s.setDefaults.runInstaller w
        { dockerCmd := deps.DockerCmd, journalctl := deps.JournalctlCmd } dv t2).2
      <+: (s.run w st deps t).2.2 := by
  rw [run_of_valid w s st deps t dv hvalid hdv, hsetup]
  simp only [hpull]
  cases h3 : s.setDefaults.runInstaller w
      { dockerCmd := deps.DockerCmd, journalctl := deps.JournalctlCmd } dv t2 with
  | mk r3 t3 =>
    cases r3 with
    | some e => exact List.prefix_refl _
    | none =>
      simp only
      have p4 := runCommand_extends w
        [filepathJoin [s.setDefaults.NvidiaInstallDirHost, bytes "bin", bytes "nvidia-smi"]]
        [] none t3
      cases h4 : runCommand w
          [filepathJoin [s.setDefaults.NvidiaInstallDirHost, bytes "bin", bytes "nvidia-smi"]]
          [] none t3 with
      | mk r4 t4 =>
        rw [h4] at p4
        cases r4 with
        | some e => exact p4
        | none =>
          simp only
          have p5 := processExists_extends w deps.RootDir (bytes "nvidia-persistenced") t4
          cases h5 : processExists w deps.RootDir (bytes "nvidia-persistenced") t4 with
          | mk r5 t5 =>
            rw [h5] at p5
            obtain ⟨found, e5⟩ := r5
            cases e5 with
            | some e => exact p4.trans p5
            | none =>
              simp only
              have p6 : t5 <+: (if !found then
                  runCommand w [filepathJoin [s.setDefaults.NvidiaInstallDirHost, bytes "bin",
                    bytes "nvidia-persistenced"], bytes "--verbose"] [] none t5
                  else (none, t5)).2 := by
                split_ifs
                · exact runCommand_extends _ _ _ _ _
                · exact List.prefix_refl _
              cases h6 : (if !found then
                  runCommand w [filepathJoin [s.setDefaults.NvidiaInstallDirHost, bytes "bin",
                    bytes "nvidia-persistenced"], bytes "--verbose"] [] none t5
                  else (none, t5)) with
              | mk r6 t6 =>
                rw [h6] at p6
                cases r6 with
                | some e => exact (p4.trans p5).trans p6
                | none =>
                  simp only
                  have p7 : t6 <+: t6 ++ [Action.writeFile (filepathJoin [deps.RootDir,
                      bytes "proc", bytes "sys", bytes "kernel", bytes "softlockup_panic"])
                      (bytes "1") 0o644] := List.prefix_append _ _
                  cases w.write t6 _ _ _ with
                  | some e => exact ((p4.trans p5).trans p6).trans p7
                  | none => exact ((p4.trans p5).trans p6).trans p7

theorem processExistsLoop_no_match (w : World) (name : GoString) (content : GoString → List Nat)
    (files : List GoString) :
    ∀ t, (∀ t0 f, f ∈ files → w.read t0 f = Except.ok (content f)) →
      (∀ f ∈ files, ¬ name <:+: replaceNul (content f)) →
      processExistsLoop w name files t = ((false, none), t ++ files.map Action.readFile) := by
  induction files with
  | nil => intro t _ _; simp [processExistsLoop]
  | cons f fs ih =>
    intro t hread hno
    have hf := hread t f (List.mem_cons_self _ _)
    have hm : ¬ stringsContains (replaceNul (content f)) name = true :=
      fun h => hno f (List.mem_cons_self _ _) ((stringsContains_iff_contiguous _ _).mp h)
    unfold processExistsLoop
    simp only [hf, hm, if_false]
    rw [ih _ (fun t0 g hg => hread t0 g (List.mem_cons_of_mem _ hg))
      (fun g hg => hno g (List.mem_cons_of_mem _ hg))]
    simp

theorem run_stage_results (State : Type) (w : World) (s : installGPUStep) (st : State)
    (deps : Deps) (t : Trace) (dv : GoString)
    (hvalid : (s.validate).1 = none)
    (hdv : s.setDefaults.deriveDriverVersion = Except.ok dv) :
    (∀ (files : List GoString) (content : GoString → List Nat),
      (∀ t0 argv dir env, w.command t0 argv dir env = none) →
      (∀ t0 path perm, w.mkdir t0 path perm = none) →
      (∀ t0 path data perm, w.write t0 path data perm = none) →
      (∀ t0 pattern, w.globFiles t0 pattern = Except.ok files) →
      (∀ t0 f, f ∈ files → w.read t0 f = Except.ok (content f)) →
      (∀ f ∈ files, ¬ bytes "nvidia-persistenced" <:+: replaceNul (content f)) →
      s.run w st deps t
        = (none, s.setDefaults,
           t ++ [ Action.mkdirAll s.setDefaults.NvidiaInstallDirHost 0o755,
                  Action.runCommand [deps.MountCmd, bytes "--bind",
                    s.setDefaults.NvidiaInstallDirHost, s.setDefaults.NvidiaInstallDirHost] [] none,
                  Action.runCommand [deps.MountCmd, bytes "-o", bytes "remount,exec",
                    s.setDefaults.NvidiaInstallDirHost] [] none,
                  Action.runCommand [deps.DockerCmd, bytes "pull", s.NvidiaInstallerContainer]
                    [] none,
                  Action.runCommand (deps.DockerCmd :: bytes "run" :: s.setDefaults.installerArgs)
                    [] (some (w.environ ++ s.setDefaults.installerEnv dv)),
                  Action.runCommand [filepathJoin [s.setDefaults.NvidiaInstallDirHost,
                    bytes "bin", bytes "nvidia-smi"]] [] none,
                  Action.glob (filepathJoin [deps.RootDir, bytes "proc", bytes "*",
                    bytes "cmdline"]) ]
             ++ files.map Action.readFile
             ++ [ Action.runCommand [filepathJoin [s.setDefaults.NvidiaInstallDirHost,
                    bytes "bin", bytes "nvidia-persistenced"], bytes "--verbose"] [] none,
                  Action.writeFile (filepathJoin [deps.RootDir, bytes "proc", bytes "sys",
                    bytes "kernel", bytes "softlockup_panic"]) (bytes "1") 0o644 ])) ∧
    (∀ (r1 r2 r3 r4 r5 r6 : Option GoError) (found : Bool) (t1 t2 t3 t4 t5 t6 : Trace),
      s.setDefaults.setupInstallDir w deps.MountCmd
        { dockerCmd := deps.DockerCmd, journalctl := deps.JournalctlCmd } t = (r1, t1) →
      docker.pull w { dockerCmd := deps.DockerCmd, journalctl := deps.JournalctlCmd }
        [s.NvidiaInstallerContainer] t1 = (r2, t2) →
      s.setDefaults.runInstaller w
        { dockerCmd := deps.DockerCmd, journalctl := deps.JournalctlCmd } dv t2 = (r3, t3) →
      runCommand w [filepathJoin [s.setDefaults.NvidiaInstallDirHost, bytes "bin",
        bytes "nvidia-smi"]] [] none t3 = (r4, t4) →
      processExists w deps.RootDir (bytes "nvidia-persistenced") t4 = ((found, r5), t5) →
      (if found then (none, t5)
        else runCommand w [filepathJoin [s.setDefaults.NvidiaInstallDirHost, bytes "bin",
          bytes "nvidia-persistenced"], bytes "--verbose"] [] none t5) = (r6, t6) →
      (∀ e, r1 = some e → s.run w st deps t = (some e, s.setDefaults, t1)) ∧
      (r1 = none → ∀ e, r2 = some e → s.run w st deps t = (some e, s.setDefaults, t2)) ∧
      (r1 = none → r2 = none → ∀ e, r3 = some e →
        s.run w st deps t = (some e, s.setDefaults, t3)) ∧
      (r1 = none → r2 = none → r3 = none → ∀ e, r4 = some e →
        s.run w st deps t = (some e, s.setDefaults, t4)) ∧
      (r1 = none → r2 = none → r3 = none → r4 = none → ∀ e, r5 = some e →
        s.run w st deps t
          = (some (GoError.errorfWrap
              "error searching for process \"nvidia-persistenced\": %v" [] e),
             s.setDefaults, t5)) ∧
      (r1 = none → r2 = none → r3 = none → r4 = none → r5 = none → ∀ e, r6 = some e →
        s.run w st deps t = (some e, s.setDefaults, t6)) ∧
      (r1 = none → r2 = none → r3 = none → r4 = none → r5 = none → r6 = none →
        s.run w st deps t
          = (w.write t6 (filepathJoin [deps.RootDir, bytes "proc", bytes "sys",
                bytes "kernel", bytes "softlockup_panic"]) (bytes "1") 0o644,
             s.setDefaults,
             t6 ++ [Action.writeFile (filepathJoin [deps.RootDir, bytes "proc", bytes "sys",
                bytes "kernel", bytes "softlockup_panic"]) (bytes "1") 0o644]))) := by
  constructor
  · intro files content hcmd hmkdir hwrite hglob hread hno
    rw [run_of_valid w s st deps t dv hvalid hdv]
    simp [installGPUStep.setupInstallDir, runCommand, hcmd, hmkdir, hwrite, docker.pull,
      docker.pullLoop, installGPUStep.runInstaller, docker.run, processExists, hglob,
      processExistsLoop_no_match w _ content files _ hread hno, setDefaults_container]
  · intro r1 r2 r3 r4 r5 r6 found t1 t2 t3 t4 t5 t6 h1 h2 h3 h4 h5 h6
    rw [← setDefaults_container] at h2
    have h6' : (if (!found) = true then
          runCommand w [filepathJoin [s.setDefaults.NvidiaInstallDirHost, bytes "bin",
            bytes "nvidia-persistenced"], bytes "--verbose"] [] none t5
        else (none, t5)) = (r6, t6) := by
      cases found <;> simpa using h6
    rw [run_of_valid w s st deps t dv hvalid hdv, h1]
    refine ⟨?_, ?_, ?_, ?_, ?_, ?_, ?_⟩
    · rintro e rfl
      rfl
    · rintro rfl e rfl
      simp only [h2]
    · rintro rfl rfl e rfl
      simp only [h2, h3]
    · rintro rfl rfl rfl e rfl
      simp only [h2, h3, h4]
    · rintro rfl rfl rfl rfl e rfl
      simp only [h2, h3, h4, h5]
    · rintro rfl rfl rfl rfl rfl e rfl
      simp only [h2, h3, h4, h5, h6']
    · rintro rfl rfl rfl rfl rfl rfl
      simp only [h2, h3, h4, h5, h6']
      cases w.write t6 _ _ _ <;> rfl


theorem validate_of_fields (s : installGPUStep) (hver : s.NvidiaDriverVersion ≠ [])
    (hcont : s.NvidiaInstallerContainer ≠ []) : (s.validate).1 = none := by
  simp [installGPUStep.validate, hver, hcont]

theorem setDefaults_eq (s : installGPUStep) (dir : GoString)
    (hdir : dir = if s.NvidiaInstallDirHost = [] then bytes "/var/lib/nvidia"
      else s.NvidiaInstallDirHost) :
    s.setDefaults = { s with NvidiaInstallDirHost := dir } := by
  unfold installGPUStep.setDefaults
  by_cases h : s.NvidiaInstallDirHost = []
  · simp [h, hdir]
  · simp [h, hdir]

theorem deriveDriverVersion_cases (s : installGPUStep) (dv : GoString)
    (hdv : (¬ bytes ".run" <:+ s.NvidiaDriverVersion ∧ dv = s.NvidiaDriverVersion) ∨
      (∃ body, s.NvidiaDriverVersion = body ++ bytes ".run" ∧
        (fieldsFunc body (fun r => r == 45))[3]? = some dv)) :
    s.setDefaults.deriveDriverVersion = Except.ok dv := by
  rcases hdv with ⟨hno, rfl⟩ | ⟨body, hv, hfield⟩
  · have hs : ¬ hasSuffix s.NvidiaDriverVersion (bytes ".run") = true :=
      fun hp => hno ((hasSuffix_iff _ _).mp hp)
    unfold installGPUStep.deriveDriverVersion
    rw [setDefaults_version]
    simp [hs]
  · exact deriveDriverVersion_of_field s body dv hv hfield

theorem pull_exhausted (w : World) (d : docker) (args : List GoString) (t : Trace)
    (hfail : ∀ j, j < 10 →
      w.command (t ++ List.replicate j (Action.runCommand (d.dockerCmd :: bytes "pull" :: args) [] none))
        (d.dockerCmd :: bytes "pull" :: args) [] none ≠ none) :
    d.pull w args t
      = (w.command (t ++ List.replicate 9 (Action.runCommand (d.dockerCmd :: bytes "pull" :: args) [] none))
            (d.dockerCmd :: bytes "pull" :: args) [] none,
         t ++ List.replicate 10 (Action.runCommand (d.dockerCmd :: bytes "pull" :: args) [] none)
           ++ [Action.runCommand
                [d.journalctl, bytes "-u", bytes "docker.service", bytes "--no-pager"] [] none]) := by
  have h := pullLoop_all_fail w (d.dockerCmd :: bytes "pull" :: args) 9 none t hfail
  unfold docker.pull
  simp only [List.cons_append, List.nil_append, h, runCommand]

theorem runInstaller_failure_cases (w : World) (s : installGPUStep) (d : docker)
    (driverVersion : GoString) (t : Trace) (e : GoError)
    (hfail : w.command t (d.dockerCmd :: bytes "run" :: s.installerArgs) []
      (some (w.environ ++ s.installerEnv driverVersion)) = some e) :
    (s.runInstaller w d driverVersion t).1 = some e ∧
    ((s.runInstaller w d driverVersion t).2
        = t ++ [Action.runCommand (d.dockerCmd :: bytes "run" :: s.installerArgs) []
                  (some (w.environ ++ s.installerEnv driverVersion)),
                Action.openFile (filepathJoin [s.NvidiaInstallDirHost, bytes "nvidia-installer.log"])] ∨
     (s.runInstaller w d driverVersion t).2
        = t ++ [Action.runCommand (d.dockerCmd :: bytes "run" :: s.installerArgs) []
                  (some (w.environ ++ s.installerEnv driverVersion)),
                Action.openFile (filepathJoin [s.NvidiaInstallDirHost, bytes "nvidia-installer.log"]),
                Action.copyToStdout (filepathJoin [s.NvidiaInstallDirHost, bytes "nvidia-installer.log"]),
                Action.closeFile (filepathJoin [s.NvidiaInstallDirHost, bytes "nvidia-installer.log"])]) := by
  simp only [installGPUStep.runInstaller, docker.run, runCommand, List.cons_append,
    List.nil_append, hfail]
  cases w.openFile
      (t ++ [Action.runCommand (d.dockerCmd :: bytes "run" :: s.installerArgs) []
        (some (w.environ ++ s.installerEnv driverVersion))])
      (filepathJoin [s.NvidiaInstallDirHost, bytes "nvidia-installer.log"]) with
  | some oe => simp
  | none =>
    simp only
    cases w.copy _ _ with
    | some ce => simp
    | none => simp

theorem processExistsLoop_read_error (w : World) (name : GoString) (content : GoString → List Nat)
    (pre : List GoString) (f : GoString) (post : List GoString) (e : GoError) :
    ∀ t, (∀ t0 g, g ∈ pre → w.read t0 g = Except.ok (content g)) →
      (∀ g ∈ pre, ¬ name <:+: replaceNul (content g)) →
      w.read (t ++ pre.map Action.readFile) f = Except.error e →
      processExistsLoop w name (pre ++ f :: post) t
        = ((false, some e), t ++ pre.map Action.readFile ++ [Action.readFile f]) := by
  induction pre with
  | nil =>
    intro t _ _ hf
    simp only [List.map_nil, List.append_nil] at hf
    simp [processExistsLoop, hf]
  | cons g gs ih =>
    intro t hread hno hf
    have hg := hread t g (List.mem_cons_self _ _)
    have hm : ¬ stringsContains (replaceNul (content g)) name = true :=
      fun h => hno g (List.mem_cons_self _ _) ((stringsContains_iff_contiguous _ _).mp h)
    rw [List.cons_append, processExistsLoop]
    simp only [hg, hm, if_false]
    rw [ih (t ++ [Action.readFile g]) (fun t0 x hx => hread t0 x (List.mem_cons_of_mem _ hx))
      (fun x hx => hno x (List.mem_cons_of_mem _ hx)) (by simpa using hf)]
    simp

/-! ## Claims -/

/-- C4: `validate` returns an error exactly when `NvidiaDriverVersion` is empty or
`NvidiaInstallerContainer` is empty; it leaves the step unchanged; and `run` on a
step that `validate` rejects returns that same error with the step and the
history of interactions unchanged (no command, no filesystem access). -/
theorem validate_rejects_iff_and_run_stops (s : installGPUStep) :
    ((s.validate).1 ≠ none ↔ (s.NvidiaDriverVersion = [] ∨ s.NvidiaInstallerContainer = [])) ∧
    (s.validate).2 = s ∧
    (∀ (State : Type) (w : World) (st : State) (deps : Deps) (t : Trace) (e : GoError),
      (s.validate).1 = some e → s.run w st deps t = (some e, s, t)) := by
  refine ⟨?_, ?_, ?_⟩
  · unfold installGPUStep.validate
    by_cases h1 : s.NvidiaDriverVersion = [] <;> by_cases h2 : s.NvidiaInstallerContainer = [] <;>
      simp [h1, h2]
  · unfold installGPUStep.validate
    split_ifs <;> rfl
  · intro State w st deps t e he
    unfold installGPUStep.run
    unfold installGPUStep.validate at he ⊢
    split_ifs at he ⊢ <;> simp_all

/-- Instance of C4: a step with an empty driver version is rejected by `validate`
and `run` returns that error in a world where everything would succeed, with no
interaction recorded. -/
theorem validate_rejects_iff_and_run_stops_witness :
    ({ sampleStep with NvidiaDriverVersion := [] } : installGPUStep).validate.1
        = some (GoError.new "invalid args: NvidiaDriverVersion is required in InstallGPU") ∧
    ({ sampleStep with NvidiaDriverVersion := [] } : installGPUStep).run quietWorld () sampleDeps []
        = (some (GoError.new "invalid args: NvidiaDriverVersion is required in InstallGPU"),
            { sampleStep with NvidiaDriverVersion := [] }, []) :=
  ⟨by decide,
   (validate_rejects_iff_and_run_stops { sampleStep with NvidiaDriverVersion := [] }).2.2
      Unit quietWorld () sampleDeps [] _ (by decide)⟩

/-- C3: in `docker.pull`, write `a` for the invocation `docker pull args` and
call "outcome of attempt j+1" the world's answer after `j` earlier invocations.
If attempts `1..k-1` fail and attempt `k` succeeds (`1 ≤ k ≤ 10`), `pull` makes
exactly `k` invocations of `a`, makes no journal read and returns `nil`.  If
attempts `1..10` all fail, `pull` makes exactly ten invocations of `a` followed
by one `journalctl -u docker.service --no-pager` and returns the error of the
tenth attempt, whatever the outcome of the journal read. -/
theorem pull_retry_policy (w : World) (d : docker) (args : List GoString) (t : Trace) :
    (∀ k, 1 ≤ k → k ≤ 10 →
      (∀ j, j < k - 1 →
        w.command (t ++ List.replicate j (Action.runCommand (d.dockerCmd :: bytes "pull" :: args) [] none))
          (d.dockerCmd :: bytes "pull" :: args) [] none ≠ none) →
      w.command (t ++ List.replicate (k - 1) (Action.runCommand (d.dockerCmd :: bytes "pull" :: args) [] none))
          (d.dockerCmd :: bytes "pull" :: args) [] none = none →
      d.pull w args t
        = (none, t ++ List.replicate k (Action.runCommand (d.dockerCmd :: bytes "pull" :: args) [] none))) ∧
    ((∀ j, j < 10 →
        w.command (t ++ List.replicate j (Action.runCommand (d.dockerCmd :: bytes "pull" :: args) [] none))
          (d.dockerCmd :: bytes "pull" :: args) [] none ≠ none) →
      (d.pull w args t).1 ≠ none ∧
      d.pull w args t
        = (w.command (t ++ List.replicate 9 (Action.runCommand (d.dockerCmd :: bytes "pull" :: args) [] none))
              (d.dockerCmd :: bytes "pull" :: args) [] none,
           t ++ List.replicate 10 (Action.runCommand (d.dockerCmd :: bytes "pull" :: args) [] none)
             ++ [Action.runCommand
                  [d.journalctl, bytes "-u", bytes "docker.service", bytes "--no-pager"] [] none])) := by
  constructor
  · intro k hk1 hk10 hfail hok
    obtain ⟨k', rfl⟩ : ∃ k', k = k' + 1 := ⟨k - 1, by omega⟩
    obtain ⟨m, hm⟩ : ∃ m, 10 = k' + 1 + m := ⟨10 - (k' + 1), by omega⟩
    have h := pullLoop_first_success w (d.dockerCmd :: bytes "pull" :: args) k' m none t
      (by simpa using hfail) (by simpa using hok)
    unfold docker.pull
    simp only [List.cons_append, List.nil_append, hm, h]
  · intro hfail
    have h := pullLoop_all_fail w (d.dockerCmd :: bytes "pull" :: args) 9 none t hfail
    have h9 := hfail 9 (by omega)
    have e : d.pull w args t
        = (w.command (t ++ List.replicate 9 (Action.runCommand (d.dockerCmd :: bytes "pull" :: args) [] none))
              (d.dockerCmd :: bytes "pull" :: args) [] none,
           t ++ List.replicate 10 (Action.runCommand (d.dockerCmd :: bytes "pull" :: args) [] none)
             ++ [Action.runCommand
                  [d.journalctl, bytes "-u", bytes "docker.service", bytes "--no-pager"] [] none]) := by
      unfold docker.pull
      simp only [List.cons_append, List.nil_append, h, runCommand]
    exact ⟨by rw [e]; exact h9, e⟩

/-- Instance of C3: in `flakyWorld` the third attempt is the first to succeed,
so `pull` makes three invocations and returns `nil`; in `failingWorld` all ten
attempts fail, so `pull` makes ten invocations, reads the journal once and
returns the error of the tenth attempt. -/
theorem pull_retry_policy_witness :
    sampleDocker.pull flakyWorld [bytes "img"] []
      = (none, List.replicate 3 (Action.runCommand [bytes "docker", bytes "pull", bytes "img"] [] none)) ∧
    sampleDocker.pull failingWorld [bytes "img"] []
      = (some (GoError.external 1),
         List.replicate 10 (Action.runCommand [bytes "docker", bytes "pull", bytes "img"] [] none)
           ++ [Action.runCommand
                [bytes "journalctl", bytes "-u", bytes "docker.service", bytes "--no-pager"] [] none]) :=
  ⟨(pull_retry_policy flakyWorld sampleDocker [bytes "img"] []).1 3 (by decide) (by decide)
      (by intro j hj; simp [flakyWorld]; omega) (by simp [flakyWorld]),
   ((pull_retry_policy failingWorld sampleDocker [bytes "img"] []).2
      (by intro j _; simp [failingWorld])).2⟩

/-- C5: one call of `stop` first makes the `is-active` query (through
`exec.Command`, not the command runner); it then invokes `systemctl stop unit`
through the command runner exactly once if the query exited zero and not at all
otherwise, and its result is the outcome of that invocation, or `nil` when none
was made.  Hence if the query reports non-zero at each of `n` successive calls,
the `n` calls return `nil` each and the history grows by the `n` queries only:
no `systemctl stop` is invoked. -/
theorem stop_idempotent_when_inactive (w : World) (sc : systemdClient) (unit : GoString) :
    (∀ t, sc.stop w unit t
      = (if w.exec t [sc.systemctl, bytes "is-active", unit] = none then
          (w.command (t ++ [Action.execRun [sc.systemctl, bytes "is-active", unit]])
              [sc.systemctl, bytes "stop", unit] [] none,
           t ++ [Action.execRun [sc.systemctl, bytes "is-active", unit],
                 Action.runCommand [sc.systemctl, bytes "stop", unit] [] none])
        else (none, t ++ [Action.execRun [sc.systemctl, bytes "is-active", unit]]))) ∧
    (∀ n t,
      (∀ j, j < n →
        w.exec (t ++ List.replicate j (Action.execRun [sc.systemctl, bytes "is-active", unit]))
          [sc.systemctl, bytes "is-active", unit] ≠ none) →
      stopRepeated w sc unit n t
        = (List.replicate n none,
           t ++ List.replicate n (Action.execRun [sc.systemctl, bytes "is-active", unit]))) := by
  have hstop : ∀ t, sc.stop w unit t
      = (if w.exec t [sc.systemctl, bytes "is-active", unit] = none then
          (w.command (t ++ [Action.execRun [sc.systemctl, bytes "is-active", unit]])
              [sc.systemctl, bytes "stop", unit] [] none,
           t ++ [Action.execRun [sc.systemctl, bytes "is-active", unit],
                 Action.runCommand [sc.systemctl, bytes "stop", unit] [] none])
        else (none, t ++ [Action.execRun [sc.systemctl, bytes "is-active", unit]])) := by
    intro t
    unfold systemdClient.stop systemdClient.isActive runCommand
    cases h : w.exec t [sc.systemctl, bytes "is-active", unit] with
    | none =>
      cases h2 : w.command (t ++ [Action.execRun [sc.systemctl, bytes "is-active", unit]])
          [sc.systemctl, bytes "stop", unit] [] none <;> simp [h, h2]
    | some e => simp [h]
  refine ⟨hstop, ?_⟩
  intro n
  induction n with
  | zero => intro t _; simp [stopRepeated]
  | succ n ih =>
    intro t hq
    have h0 : w.exec t [sc.systemctl, bytes "is-active", unit] ≠ none := by
      simpa using hq 0 (by omega)
    have hrest := ih (t ++ [Action.execRun [sc.systemctl, bytes "is-active", unit]]) (by
      intro j hj
      rw [replicate_snoc_history]
      exact hq (j + 1) (by omega))
    simp only [stopRepeated, hstop t, if_neg h0, hrest, replicate_snoc_history,
      List.replicate_succ]

/-- Instance of C5: in `failingWorld` the `is-active` query always exits
non-zero; two calls of `stop` make the two queries, invoke no command through
the command runner and both return `nil`. -/
theorem stop_idempotent_when_inactive_witness :
    stopRepeated failingWorld { systemctl := bytes "systemctl" } (bytes "docker.service") 2 []
      = ([none, none],
         [Action.execRun [bytes "systemctl", bytes "is-active", bytes "docker.service"],
          Action.execRun [bytes "systemctl", bytes "is-active", bytes "docker.service"]]) :=
  (stop_idempotent_when_inactive failingWorld { systemctl := bytes "systemctl" }
      (bytes "docker.service")).2 2 [] (by intro j _; simp [failingWorld])

/-- C2: when `validate` accepts the step, the driver version is `body` followed
by `.run`, and the split of `body` at `-` has fewer than four fields, `run`
returns the error `Malformed nvidia installer` and the history of interactions
is unchanged: no command is invoked, no directory created, no file written. -/
theorem run_malformed_installer_no_side_effects (State : Type) (w : World) (s : installGPUStep)
    (st : State) (deps : Deps) (t : Trace) (body : GoString)
    (hvalid : (s.validate).1 = none)
    (hv : s.NvidiaDriverVersion = body ++ bytes ".run")
    (hfields : (fieldsFunc body (fun r => r == 45)).length < 4) :
    s.run w st deps t
      = (some (GoError.errorf "Malformed nvidia installer: %q" [s.NvidiaDriverVersion]),
         s.setDefaults, t) := by
  have hs : hasSuffix (body ++ bytes ".run") (bytes ".run") = true :=
    (hasSuffix_iff _ _).mpr (List.suffix_append _ _)
  have hd : s.setDefaults.deriveDriverVersion
      = Except.error (GoError.errorf "Malformed nvidia installer: %q" [s.NvidiaDriverVersion]) := by
    unfold installGPUStep.deriveDriverVersion
    rw [setDefaults_version, hv]
    simp only [hs, trimSuffix_append, if_true, hfields]
  unfold installGPUStep.run
  simp only [validate_ok s hvalid, hd]

/-- Instance of C2: the version `NVIDIA-Linux-450.51.06.run` has three fields;
`run` fails before any interaction, in a world where everything would succeed. -/
theorem run_malformed_installer_no_side_effects_witness :
    ({ sampleStep with NvidiaDriverVersion := bytes "NVIDIA-Linux-450.51.06.run" } :
        installGPUStep).run quietWorld () sampleDeps []
      = (some (GoError.errorf "Malformed nvidia installer: %q"
            [bytes "NVIDIA-Linux-450.51.06.run"]),
         { sampleStep with NvidiaDriverVersion := bytes "NVIDIA-Linux-450.51.06.run",
                           NvidiaInstallDirHost := bytes "/var/lib/nvidia" },
         []) :=
  run_malformed_installer_no_side_effects Unit quietWorld
    { sampleStep with NvidiaDriverVersion := bytes "NVIDIA-Linux-450.51.06.run" }
    () sampleDeps [] (bytes "NVIDIA-Linux-450.51.06") (by decide) (by decide) (by decide)

/-- C9: when the `docker run` of the installer fails with error `e`,
`runInstaller` returns exactly `e`, whether the installer log cannot be opened
(the history then ends with the failed open), or is opened and the copy to
standard output fails, or is opened and copied (in both cases the history ends
with open, copy, close); and `docker.run` makes exactly one command invocation
and returns its outcome. -/
theorem runInstaller_returns_docker_error (w : World) (s : installGPUStep) (d : docker)
    (driverVersion : GoString) (t : Trace) (e : GoError)
    (hfail : w.command t (d.dockerCmd :: bytes "run" :: s.installerArgs) []
      (some (w.environ ++ s.installerEnv driverVersion)) = some e) :
    (s.runInstaller w d driverVersion t).1 = some e ∧
    (w.openFile
        (t ++ [Action.runCommand (d.dockerCmd :: bytes "run" :: s.installerArgs) []
          (some (w.environ ++ s.installerEnv driverVersion))])
        (filepathJoin [s.NvidiaInstallDirHost, bytes "nvidia-installer.log"]) ≠ none →
      (s.runInstaller w d driverVersion t).2
        = t ++ [Action.runCommand (d.dockerCmd :: bytes "run" :: s.installerArgs) []
                  (some (w.environ ++ s.installerEnv driverVersion)),
                Action.openFile (filepathJoin [s.NvidiaInstallDirHost, bytes "nvidia-installer.log"])]) ∧
    (w.openFile
        (t ++ [Action.runCommand (d.dockerCmd :: bytes "run" :: s.installerArgs) []
          (some (w.environ ++ s.installerEnv driverVersion))])
        (filepathJoin [s.NvidiaInstallDirHost, bytes "nvidia-installer.log"]) = none →
      (s.runInstaller w d driverVersion t).2
        = t ++ [Action.runCommand (d.dockerCmd :: bytes "run" :: s.installerArgs) []
                  (some (w.environ ++ s.installerEnv driverVersion)),
                Action.openFile (filepathJoin [s.NvidiaInstallDirHost, bytes "nvidia-installer.log"]),
                Action.copyToStdout (filepathJoin [s.NvidiaInstallDirHost, bytes "nvidia-installer.log"]),
                Action.closeFile (filepathJoin [s.NvidiaInstallDirHost, bytes "nvidia-installer.log"])]) ∧
    (∀ (args env : List GoString) (t0 : Trace),
      d.run w args env t0
        = (w.command t0 (d.dockerCmd :: bytes "run" :: args) [] (some (w.environ ++ env)),
           t0 ++ [Action.runCommand (d.dockerCmd :: bytes "run" :: args) []
                    (some (w.environ ++ env))])) := by
  have hrun : ∀ (args env : List GoString) (t0 : Trace),
      d.run w args env t0
        = (w.command t0 (d.dockerCmd :: bytes "run" :: args) [] (some (w.environ ++ env)),
           t0 ++ [Action.runCommand (d.dockerCmd :: bytes "run" :: args) []
                    (some (w.environ ++ env))]) := by
    intro args env t0
    simp [docker.run, runCommand]
  refine ⟨?_, ?_, ?_, hrun⟩
  · unfold installGPUStep.runInstaller
    simp only [hrun, hfail]
    cases w.openFile _ _ <;> simp only
    cases w.copy _ _ <;> simp only
  · intro hopen
    obtain ⟨oe, hoe⟩ := Option.ne_none_iff_exists'.mp hopen
    unfold installGPUStep.runInstaller
    simp [hrun, hfail, hoe]
  · intro hopen
    unfold installGPUStep.runInstaller
    simp only [hrun, hfail, hopen]
    cases w.copy _ _ <;> simp

/-- Instance of C9: in `failingWorld` the `docker run` of the installer fails
with `external 1` and the log is opened and copied; in `noLogWorld` it fails the
same way and the log cannot be opened.  `runInstaller` returns `external 1` in
both. -/
theorem runInstaller_returns_docker_error_witness :
    (sampleStep.setDefaults.runInstaller failingWorld sampleDocker (bytes "450.51.06") []).1
      = some (GoError.external 1) ∧
    (sampleStep.setDefaults.runInstaller failingWorld sampleDocker (bytes "450.51.06") []).2
      = [Action.runCommand
            (bytes "docker" :: bytes "run" :: sampleStep.setDefaults.installerArgs) []
            (some (sampleStep.setDefaults.installerEnv (bytes "450.51.06"))),
         Action.openFile (bytes "/var/lib/nvidia/nvidia-installer.log"),
         Action.copyToStdout (bytes "/var/lib/nvidia/nvidia-installer.log"),
         Action.closeFile (bytes "/var/lib/nvidia/nvidia-installer.log")] ∧
    (sampleStep.setDefaults.runInstaller noLogWorld sampleDocker (bytes "450.51.06") []).1
      = some (GoError.external 1) ∧
    (sampleStep.setDefaults.runInstaller noLogWorld sampleDocker (bytes "450.51.06") []).2
      = [Action.runCommand
            (bytes "docker" :: bytes "run" :: sampleStep.setDefaults.installerArgs) []
            (some (sampleStep.setDefaults.installerEnv (bytes "450.51.06"))),
         Action.openFile (bytes "/var/lib/nvidia/nvidia-installer.log")] :=
  ⟨(runInstaller_returns_docker_error failingWorld sampleStep.setDefaults sampleDocker
      (bytes "450.51.06") [] (GoError.external 1) rfl).1,
   (runInstaller_returns_docker_error failingWorld sampleStep.setDefaults sampleDocker
      (bytes "450.51.06") [] (GoError.external 1) rfl).2.2.1 rfl,
   (runInstaller_returns_docker_error noLogWorld sampleStep.setDefaults sampleDocker
      (bytes "450.51.06") [] (GoError.external 1) rfl).1,
   (runInstaller_returns_docker_error noLogWorld sampleStep.setDefaults sampleDocker
      (bytes "450.51.06") [] (GoError.external 1) rfl).2.1 (by decide)⟩

/-- C6: `processExists` over a process table of readable `cmdline` files (the
glob yields `files`, reading `f` yields `content f`): it returns `(true, nil)`
if and only if the content of some file, with every NUL byte replaced by a
space, contains `name` as a contiguous substring, and `(false, nil)` otherwise;
and any other enumeration order of the same files gives the same result. -/
theorem processExists_readable_table (w : World) (rootDir name : GoString)
    (content : GoString → List Nat) (files : List GoString) (t : Trace)
    (hglob : w.globFiles t (filepathJoin [rootDir, bytes "proc", bytes "*", bytes "cmdline"])
      = Except.ok files)
    (hread : ∀ t0 f, f ∈ files → w.read t0 f = Except.ok (content f)) :
    ((processExists w rootDir name t).1 = (true, none) ↔
      ∃ f ∈ files, name <:+: (content f).map (fun b => if b = 0 then 32 else b)) ∧
    ((¬ ∃ f ∈ files, name <:+: (content f).map (fun b => if b = 0 then 32 else b)) →
      (processExists w rootDir name t).1 = (false, none)) ∧
    (∀ (w2 : World) (files2 : List GoString) (t2 : Trace),
      files2.Perm files →
      w2.globFiles t2 (filepathJoin [rootDir, bytes "proc", bytes "*", bytes "cmdline"])
        = Except.ok files2 →
      (∀ t0 f, f ∈ files2 → w2.read t0 f = Except.ok (content f)) →
      (processExists w2 rootDir name t2).1 = (processExists w rootDir name t).1) := by
  have key : ∀ (w1 : World) (fs : List GoString) (t1 : Trace),
      w1.globFiles t1 (filepathJoin [rootDir, bytes "proc", bytes "*", bytes "cmdline"])
        = Except.ok fs →
      (∀ t0 f, f ∈ fs → w1.read t0 f = Except.ok (content f)) →
      (processExists w1 rootDir name t1).1
        = (decide (∃ f ∈ fs, name <:+: (content f).map (fun b => if b = 0 then 32 else b)), none) := by
    intro w1 fs t1 hg hr
    simp only [← replaceNul_eq_map_space]
    rw [processExists_eq_scanTable w1 rootDir name (fun f => Except.ok (content f)) fs t1 hg hr,
      scanTable_readable]
    congr 1
    rw [Bool.eq_iff_iff]
    simp [List.any_eq_true, stringsContains_iff_contiguous]
  refine ⟨?_, ?_, ?_⟩
  · rw [key w files t hglob hread]
    simp
  · intro hno
    rw [key w files t hglob hread]
    simp only [hno, decide_False]
  · intro w2 files2 t2 hperm hg2 hr2
    rw [key w files t hglob hread, key w2 files2 t2 hg2 hr2]
    congr 1
    rw [Bool.eq_iff_iff]
    simp only [decide_eq_true_eq]
    exact ⟨fun ⟨f, hf, hm⟩ => ⟨f, hperm.mem_iff.mp hf, hm⟩,
      fun ⟨f, hf, hm⟩ => ⟨f, hperm.mem_iff.mpr hf, hm⟩⟩

/-- Instance of C6: over the readable table holding `sleep 60` and
`/usr/bin/nvidia-persistenced --verbose`, both with NUL separators, the search
for `nvidia-persistenced --verbose` (with a space) returns `(true, nil)` in the
order 1, 2, and the order 2, 1 gives the same result. -/
theorem processExists_readable_table_witness :
    (processExists
        (tableWorld [bytes "/proc/1/cmdline", bytes "/proc/2/cmdline"]
          (fun f => Except.ok (readableTable f)))
        (bytes "/") (bytes "nvidia-persistenced --verbose") []).1 = (true, none) ∧
    (processExists
        (tableWorld [bytes "/proc/2/cmdline", bytes "/proc/1/cmdline"]
          (fun f => Except.ok (readableTable f)))
        (bytes "/") (bytes "nvidia-persistenced --verbose") []).1
      = (processExists
        (tableWorld [bytes "/proc/1/cmdline", bytes "/proc/2/cmdline"]
          (fun f => Except.ok (readableTable f)))
        (bytes "/") (bytes "nvidia-persistenced --verbose") []).1 :=
  ⟨(processExists_readable_table
      (tableWorld [bytes "/proc/1/cmdline", bytes "/proc/2/cmdline"]
        (fun f => Except.ok (readableTable f)))
      (bytes "/") (bytes "nvidia-persistenced --verbose") readableTable
      [bytes "/proc/1/cmdline", bytes "/proc/2/cmdline"] [] rfl (fun _ _ _ => rfl)).1.mpr
      ⟨bytes "/proc/2/cmdline", by decide,
        (stringsContains_iff_contiguous _ _).mp (by decide)⟩,
   (processExists_readable_table
      (tableWorld [bytes "/proc/1/cmdline", bytes "/proc/2/cmdline"]
        (fun f => Except.ok (readableTable f)))
      (bytes "/") (bytes "nvidia-persistenced --verbose") readableTable
      [bytes "/proc/1/cmdline", bytes "/proc/2/cmdline"] [] rfl (fun _ _ _ => rfl)).2.2
      (tableWorld [bytes "/proc/2/cmdline", bytes "/proc/1/cmdline"]
        (fun f => Except.ok (readableTable f)))
      [bytes "/proc/2/cmdline", bytes "/proc/1/cmdline"] []
      (List.Perm.swap _ _ _) rfl (fun _ _ _ => rfl)⟩

/-- C10: `processExists` over a process table whose files may fail to read (the
glob yields `files`, reading `f` yields `content f`, an error or the bytes):
it returns an error if and only if some unreadable file is enumerated before
any file whose NUL-to-space content contains `name`.  Hence the outcome depends
on the enumeration order: over `mixedTable`, which holds one unreadable file and
one file `/usr/bin/nvidia-persistenced --verbose` with NUL separators, the
search for `nvidia-persistenced --verbose` (with a space) gives `(true, nil)` in
the order matching-first and the read error in the order unreadable-first.  And when no file matches, one
unreadable file makes the check return an error. -/
theorem processExists_unreadable_file (w : World) (rootDir name : GoString)
    (content : GoString → Except GoError (List Nat)) (files : List GoString) (t : Trace)
    (hglob : w.globFiles t (filepathJoin [rootDir, bytes "proc", bytes "*", bytes "cmdline"])
      = Except.ok files)
    (hread : ∀ t0 f, f ∈ files → w.read t0 f = content f) :
    ((processExists w rootDir name t).1.2 ≠ none ↔
      ∃ pre f post, files = pre ++ f :: post ∧ (∃ e, content f = Except.error e) ∧
        ∀ g ∈ pre, ∀ d, content g = Except.ok d → ¬ name <:+: d.map (fun b => if b = 0 then 32 else b)) ∧
    ((processExists
        (tableWorld [bytes "/proc/2/cmdline", bytes "/proc/1/cmdline"] mixedTable)
        (bytes "/") (bytes "nvidia-persistenced --verbose") []).1 = (true, none) ∧
     (processExists
        (tableWorld [bytes "/proc/1/cmdline", bytes "/proc/2/cmdline"] mixedTable)
        (bytes "/") (bytes "nvidia-persistenced --verbose") []).1
      = (false, some (GoError.external 13))) ∧
    ((∀ g ∈ files, ∀ d, content g = Except.ok d → ¬ name <:+: d.map (fun b => if b = 0 then 32 else b)) →
      (∃ f ∈ files, ∃ e, content f = Except.error e) →
      (processExists w rootDir name t).1.2 ≠ none) := by
  have hiff := scanTable_error_iff content name files
  simp only [replaceNul_eq_map_space] at hiff
  rw [← processExists_eq_scanTable w rootDir name content files t hglob hread] at hiff
  refine ⟨hiff, ⟨by decide, by decide⟩, ?_⟩
  intro hno ⟨f, hf, he⟩
  obtain ⟨pre, post, hsplit⟩ := List.append_of_mem hf
  exact hiff.mpr ⟨pre, f, post, hsplit, he,
    fun g hg => hno g (by rw [hsplit]; exact List.mem_append_left _ hg)⟩

/-- Instance of C10: over `mixedTable` enumerated unreadable-first the check
returns an error, over the table holding only the unreadable file (no file
matches) it returns an error as well, and over `mixedTable` enumerated
matching-first it returns `(true, nil)`. -/
theorem processExists_unreadable_file_witness :
    (processExists
        (tableWorld [bytes "/proc/1/cmdline", bytes "/proc/2/cmdline"] mixedTable)
        (bytes "/") (bytes "nvidia-persistenced --verbose") []).1.2 ≠ none ∧
    (processExists
        (tableWorld [bytes "/proc/1/cmdline"] mixedTable)
        (bytes "/") (bytes "nvidia-persistenced --verbose") []).1.2 ≠ none ∧
    (processExists
        (tableWorld [bytes "/proc/2/cmdline", bytes "/proc/1/cmdline"] mixedTable)
        (bytes "/") (bytes "nvidia-persistenced --verbose") []).1 = (true, none) :=
  ⟨(processExists_unreadable_file
      (tableWorld [bytes "/proc/1/cmdline", bytes "/proc/2/cmdline"] mixedTable)
      (bytes "/") (bytes "nvidia-persistenced --verbose") mixedTable
      [bytes "/proc/1/cmdline", bytes "/proc/2/cmdline"] [] rfl (fun _ _ _ => rfl)).1.mpr
      ⟨[], bytes "/proc/1/cmdline", [bytes "/proc/2/cmdline"], rfl,
        ⟨GoError.external 13, rfl⟩, by simp⟩,
   (processExists_unreadable_file
      (tableWorld [bytes "/proc/1/cmdline"] mixedTable)
      (bytes "/") (bytes "nvidia-persistenced --verbose") mixedTable
      [bytes "/proc/1/cmdline"] [] rfl (fun _ _ _ => rfl)).2.2
      (by
        intro g hg d hd
        rw [List.mem_singleton.mp hg] at hd
        have hbad : mixedTable (bytes "/proc/1/cmdline") = Except.error (GoError.external 13) :=
          rfl
        rw [hbad] at hd
        cases hd)
      ⟨bytes "/proc/1/cmdline", by simp, GoError.external 13, rfl⟩,
   (processExists_unreadable_file
      (tableWorld [bytes "/proc/2/cmdline", bytes "/proc/1/cmdline"] mixedTable)
      (bytes "/") (bytes "nvidia-persistenced --verbose") mixedTable
      [bytes "/proc/2/cmdline", bytes "/proc/1/cmdline"] [] rfl (fun _ _ _ => rfl)).2.1.1⟩

/-- C7: the first interaction of `runInstaller` is the `docker run` of the
installer, whose environment overlay ends with `COS_DOWNLOAD_GCS=cos` and
`GPU_INSTALLER_DOWNLOAD_URL=gpu`, where: `cos` is empty when `GCSDepsPrefix` is
empty, and otherwise `https://storage.googleapis.com/` followed by
`GCSDepsPrefix` without its leading `gs://` (if it has one); `gpu` is non-empty
exactly when `NvidiaDriverVersion` ends in `.run` and `GCSDepsPrefix` is
non-empty, and is then `cos`, `/` and the full `NvidiaDriverVersion`. -/
theorem runInstaller_download_urls (w : World) (s : installGPUStep) (d : docker)
    (driverVersion : GoString) (t : Trace) :
    ∃ cos gpu rest,
      (s.runInstaller w d driverVersion t).2
        = t ++ Action.runCommand (d.dockerCmd :: bytes "run" :: s.installerArgs) []
            (some (w.environ ++
              [ bytes "NVIDIA_DRIVER_VERSION=" ++ driverVersion,
                bytes "NVIDIA_DRIVER_MD5SUM=" ++ s.NvidiaDriverMD5Sum,
                bytes "NVIDIA_INSTALL_DIR_HOST=" ++ s.NvidiaInstallDirHost,
                bytes "COS_NVIDIA_INSTALLER_CONTAINER=" ++ s.NvidiaInstallerContainer,
                bytes "NVIDIA_INSTALL_DIR_CONTAINER=/usr/local/nvidia",
                bytes "ROOT_MOUNT_DIR=/root",
                bytes "COS_DOWNLOAD_GCS=" ++ cos,
                bytes "GPU_INSTALLER_DOWNLOAD_URL=" ++ gpu ])) :: rest ∧
      (s.GCSDepsPrefix = [] → cos = []) ∧
      (∀ r, s.GCSDepsPrefix = bytes "gs://" ++ r →
        cos = bytes "https://storage.googleapis.com/" ++ r) ∧
      (s.GCSDepsPrefix ≠ [] → ¬ bytes "gs://" <+: s.GCSDepsPrefix →
        cos = bytes "https://storage.googleapis.com/" ++ s.GCSDepsPrefix) ∧
      (gpu ≠ [] ↔ (bytes ".run" <:+ s.NvidiaDriverVersion ∧ s.GCSDepsPrefix ≠ [])) ∧
      (bytes ".run" <:+ s.NvidiaDriverVersion → s.GCSDepsPrefix ≠ [] →
        gpu = cos ++ bytes "/" ++ s.NvidiaDriverVersion) := by
  obtain ⟨rest, hrest⟩ := runInstaller_first_action w s d driverVersion t
  have hhttps : bytes "https://storage.googleapis.com/" ≠ [] := by decide
  have hdl : s.downloadURL ≠ [] ↔ s.GCSDepsPrefix ≠ [] := by
    unfold installGPUStep.downloadURL
    by_cases h : s.GCSDepsPrefix = []
    · simp [h]
    · simp [h, hhttps]
  refine ⟨s.downloadURL, s.gpuInstallerDownloadURL, rest, hrest, ?_, ?_, ?_, ?_, ?_⟩
  · intro h
    simp [installGPUStep.downloadURL, h]
  · intro r h
    have hne : s.GCSDepsPrefix ≠ [] := by
      rw [h]
      have : bytes "gs://" ≠ [] := by decide
      simp [this]
    simp only [installGPUStep.downloadURL, hne, ne_eq, not_false_eq_true, if_true]
    rw [h, trimPrefix_append]
  · intro hne hnp
    simp only [installGPUStep.downloadURL, hne, ne_eq, not_false_eq_true, if_true]
    rw [trimPrefix_of_not_leading _ _ hnp]
  · unfold installGPUStep.gpuInstallerDownloadURL
    by_cases h1 : bytes ".run" <:+ s.NvidiaDriverVersion
    · by_cases h2 : s.GCSDepsPrefix = []
      · have hd : s.downloadURL = [] := by simp [installGPUStep.downloadURL, h2]
        simp [h2, hd]
      · have hd : s.downloadURL ≠ [] := hdl.mpr h2
        have hs := (hasSuffix_iff _ _).mpr h1
        simp [h1, h2, hd, hs]
    · have hs : ¬ hasSuffix s.NvidiaDriverVersion (bytes ".run") = true :=
        fun hp => h1 ((hasSuffix_iff _ _).mp hp)
      simp [h1, hs]
  · intro h1 h2
    have hd : s.downloadURL ≠ [] := hdl.mpr h2
    have hs := (hasSuffix_iff _ _).mpr h1
    simp [installGPUStep.gpuInstallerDownloadURL, hd, hs]

set_option maxRecDepth 8192 in
/-- Instance of C7: with `GCSDepsPrefix = gs://bucket/deps` and the version
`NVIDIA-Linux-x86_64-450.51.06.run`, the installer is given
`COS_DOWNLOAD_GCS=https://storage.googleapis.com/bucket/deps` and
`GPU_INSTALLER_DOWNLOAD_URL` pointing at the archive below it. -/
theorem runInstaller_download_urls_witness :
    ∃ rest,
      (gcsStep.runInstaller quietWorld sampleDocker (bytes "450.51.06") []).2
        = [] ++ Action.runCommand (bytes "docker" :: bytes "run" :: gcsStep.installerArgs) []
            (some ([] ++
              [ bytes "NVIDIA_DRIVER_VERSION=450.51.06",
                bytes "NVIDIA_DRIVER_MD5SUM=abc123",
                bytes "NVIDIA_INSTALL_DIR_HOST=/var/lib/nvidia",
                bytes "COS_NVIDIA_INSTALLER_CONTAINER=gcr.io/example/gpu-installer:latest",
                bytes "NVIDIA_INSTALL_DIR_CONTAINER=/usr/local/nvidia",
                bytes "ROOT_MOUNT_DIR=/root",
                bytes "COS_DOWNLOAD_GCS=https://storage.googleapis.com/bucket/deps",
                bytes ("GPU_INSTALLER_DOWNLOAD_URL=https://storage.googleapis.com/bucket/deps/"
                  ++ "NVIDIA-Linux-x86_64-450.51.06.run") ])) :: rest :=
  match runInstaller_download_urls quietWorld gcsStep sampleDocker (bytes "450.51.06") [] with
  | ⟨_, _, rest, htrace, _, hgs, _, _, hgpu⟩ =>
    ⟨rest, by
      rw [htrace, hgpu (by decide) (by decide), hgs (bytes "bucket/deps") (by decide)]
      refine congrArg (fun a => [] ++ a :: rest) ?_
      decide⟩

/-- C1: when `validate` accepts the step, `NvidiaDriverVersion` is `body` followed
by `.run`, and the split of `body` at `-` has a field `f` at index 3 (so at least
four fields), the version derived by `run` is `f`; and once the install
directory is set up (history `t1`) and the image pulled (history `t2`), the next
interaction of `run` is the `docker run` of the installer whose environment
overlay holds exactly one `NVIDIA_DRIVER_VERSION` entry, with value `f`.  In
particular, when `body` is `a-b-c-d` or `a-b-c-d-...` with `a`, `b`, `c`, `d`
non-empty and free of `-`, that value is `d`. -/
theorem run_hands_fourth_field_to_installer (State : Type) (w : World) (s : installGPUStep)
    (st : State) (deps : Deps) (t t1 t2 : Trace) (body f : GoString)
    (hvalid : (s.validate).1 = none)
    (hv : s.NvidiaDriverVersion = body ++ bytes ".run")
    (hfield : (fieldsFunc body (fun r => r == 45))[3]? = some f)
    (hsetup : s.setDefaults.setupInstallDir w deps.MountCmd
      { dockerCmd := deps.DockerCmd, journalctl := deps.JournalctlCmd } t = (none, t1))
    (hpull : docker.pull w { dockerCmd := deps.DockerCmd, journalctl := deps.JournalctlCmd }
      [s.NvidiaInstallerContainer] t1 = (none, t2)) :
    s.setDefaults.deriveDriverVersion = Except.ok f ∧
    (∃ rest, (s.run w st deps t).2.2
      = t2 ++ Action.runCommand (deps.DockerCmd :: bytes "run" :: s.setDefaults.installerArgs) []
          (some (w.environ ++ s.setDefaults.installerEnv f)) :: rest) ∧
    (s.setDefaults.installerEnv f).filter
        (fun x => hasPrefix x (bytes "NVIDIA_DRIVER_VERSION="))
      = [bytes "NVIDIA_DRIVER_VERSION=" ++ f] ∧
    (∀ a b c d more : GoString,
      (∀ x ∈ a, x ≠ 45) → (∀ x ∈ b, x ≠ 45) → (∀ x ∈ c, x ≠ 45) → (∀ x ∈ d, x ≠ 45) →
      a ≠ [] → b ≠ [] → c ≠ [] → d ≠ [] → (more = [] ∨ more.head? = some 45) →
      body = a ++ [45] ++ b ++ [45] ++ c ++ [45] ++ d ++ more → f = d) := by
  have hdv := deriveDriverVersion_of_field s body f hv hfield
  refine ⟨hdv, ?_, installerEnv_version_entry _ _, ?_⟩
  · obtain ⟨rest, hrest⟩ := runInstaller_first_action w s.setDefaults
      { dockerCmd := deps.DockerCmd, journalctl := deps.JournalctlCmd } f t2
    have hpull2 : docker.pull w { dockerCmd := deps.DockerCmd, journalctl := deps.JournalctlCmd }
        [s.setDefaults.NvidiaInstallerContainer] t1 = (none, t2) := by
      rw [setDefaults_container]
      exact hpull
    obtain ⟨more, hmore⟩ := run_extends_installer w s st deps t t1 t2 f hvalid hdv hsetup hpull2
    exact ⟨rest ++ more, by rw [← hmore, hrest]; simp⟩
  · intro a b c d more ha hb hc hd hane hbne hcne hdne hmore hbody
    have h4 := fieldsFunc_fourth a b c d more ha hb hc hd hane hbne hcne hdne hmore
    rw [← hbody, hfield] at h4
    exact Option.some.inj h4

set_option maxRecDepth 8192 in
/-- Instance of C1: for `NVIDIA-Linux-x86_64-450.51.06.run` the derived version
is `450.51.06`, and in a world where everything succeeds the interaction after
the pull is the `docker run` with `NVIDIA_DRIVER_VERSION=450.51.06`. -/
theorem run_hands_fourth_field_to_installer_witness :
    gcsStep.setDefaults.deriveDriverVersion = Except.ok (bytes "450.51.06") ∧
    (∃ rest, (gcsStep.run quietWorld () sampleDeps []).2.2
      = [ Action.mkdirAll (bytes "/var/lib/nvidia") 0o755,
          Action.runCommand
            [bytes "mount", bytes "--bind", bytes "/var/lib/nvidia", bytes "/var/lib/nvidia"]
            [] none,
          Action.runCommand
            [bytes "mount", bytes "-o", bytes "remount,exec", bytes "/var/lib/nvidia"] [] none,
          Action.runCommand
            [bytes "docker", bytes "pull", bytes "gcr.io/example/gpu-installer:latest"] [] none ]
        ++ Action.runCommand (sampleDeps.DockerCmd :: bytes "run" :: gcsStep.setDefaults.installerArgs)
            [] (some (quietWorld.environ ++ gcsStep.setDefaults.installerEnv (bytes "450.51.06")))
          :: rest) ∧
    (gcsStep.setDefaults.installerEnv (bytes "450.51.06")).filter
        (fun x => hasPrefix x (bytes "NVIDIA_DRIVER_VERSION="))
      = [bytes "NVIDIA_DRIVER_VERSION=" ++ bytes "450.51.06"] :=
  have h := run_hands_fourth_field_to_installer Unit quietWorld gcsStep () sampleDeps []
    [ Action.mkdirAll (bytes "/var/lib/nvidia") 0o755,
      Action.runCommand
        [bytes "mount", bytes "--bind", bytes "/var/lib/nvidia", bytes "/var/lib/nvidia"]
        [] none,
      Action.runCommand
        [bytes "mount", bytes "-o", bytes "remount,exec", bytes "/var/lib/nvidia"] [] none ]
    [ Action.mkdirAll (bytes "/var/lib/nvidia") 0o755,
      Action.runCommand
        [bytes "mount", bytes "--bind", bytes "/var/lib/nvidia", bytes "/var/lib/nvidia"]
        [] none,
      Action.runCommand
        [bytes "mount", bytes "-o", bytes "remount,exec", bytes "/var/lib/nvidia"] [] none,
      Action.runCommand
        [bytes "docker", bytes "pull", bytes "gcr.io/example/gpu-installer:latest"] [] none ]
    (bytes "NVIDIA-Linux-x86_64-450.51.06") (bytes "450.51.06")
    (by decide) (by decide) (by decide) (by decide) (by decide)
  ⟨h.1, h.2.1, h.2.2.1⟩

/-- C8: let the step have a non-empty driver version and installer container,
let `dir` be its install directory (`/var/lib/nvidia` when unset), let `dv` be
the configured version, or its fourth `-`-separated field when it ends in
`.run`, and let `iargs`, `ienv` be the command line and environment overlay of
the installer's `docker run` as written out below.
(a) When every command, directory creation, glob, read and write succeeds and no
`cmdline` file contains `nvidia-persistenced`, `run` returns `nil` and adds to
the history exactly, in order: creation of `dir`, `mount --bind dir dir`,
`mount -o remount,exec dir`, one `docker pull` of the installer image, the
`docker run` of the installer with version `dv`, `dir/bin/nvidia-smi` with no
argument, the glob and the reads of the process scan,
`dir/bin/nvidia-persistenced --verbose`, and the write of `1` to
`<rootDir>/proc/sys/kernel/softlockup_panic`.
(b) In any world, a failure of the directory creation, of the bind mount or of
the remount makes `run` return an error with the history ending at the failed
interaction.  Name the result and history of each stage run in turn: if a stage
returns an error and all stages before it returned `nil`, `run` returns an error
and its history is the one at the end of the failing stage.  And a stage does
fail when the world fails it: ten failed pulls, a failed `docker run`, a failed
`nvidia-smi`, a failed glob, a failed read before any match, a failed launch of
the daemon, a failed write each make `run` return an error, with the history
ending at that stage's interactions (for the pull the ten attempts and the
journal read, for the installer the log dump). -/
theorem run_stage_sequence (State : Type) (w : World) (s : installGPUStep) (st : State)
    (deps : Deps) (t : Trace) (dir dv : GoString) (iargs ienv : List GoString)
    (hver : s.NvidiaDriverVersion ≠ [])
    (hcont : s.NvidiaInstallerContainer ≠ [])
    (hdir : dir = if s.NvidiaInstallDirHost = [] then bytes "/var/lib/nvidia"
      else s.NvidiaInstallDirHost)
    (hdv : (¬ bytes ".run" <:+ s.NvidiaDriverVersion ∧ dv = s.NvidiaDriverVersion) ∨
      (∃ body, s.NvidiaDriverVersion = body ++ bytes ".run" ∧
        (fieldsFunc body (fun r => r == 45))[3]? = some dv))
    (hargs : iargs =
      [ deps.DockerCmd, bytes "run",
        bytes "--rm", bytes "--privileged", bytes "--net=host", bytes "--pid=host",
        bytes "--volume", dir ++ bytes ":/usr/local/nvidia",
        bytes "--volume", bytes "/dev:/dev",
        bytes "--volume", bytes "/:/root",
        bytes "-e", bytes "NVIDIA_DRIVER_VERSION",
        bytes "-e", bytes "NVIDIA_DRIVER_MD5SUM",
        bytes "-e", bytes "NVIDIA_INSTALL_DIR_HOST",
        bytes "-e", bytes "COS_NVIDIA_INSTALLER_CONTAINER",
        bytes "-e", bytes "NVIDIA_INSTALL_DIR_CONTAINER",
        bytes "-e", bytes "ROOT_MOUNT_DIR",
        bytes "-e", bytes "COS_DOWNLOAD_GCS",
        bytes "-e", bytes "GPU_INSTALLER_DOWNLOAD_URL",
        s.NvidiaInstallerContainer ])
    (henv : ienv =
      [ bytes "NVIDIA_DRIVER_VERSION=" ++ dv,
        bytes "NVIDIA_DRIVER_MD5SUM=" ++ s.NvidiaDriverMD5Sum,
        bytes "NVIDIA_INSTALL_DIR_HOST=" ++ dir,
        bytes "COS_NVIDIA_INSTALLER_CONTAINER=" ++ s.NvidiaInstallerContainer,
        bytes "NVIDIA_INSTALL_DIR_CONTAINER=/usr/local/nvidia",
        bytes "ROOT_MOUNT_DIR=/root",
        bytes "COS_DOWNLOAD_GCS=" ++ s.downloadURL,
        bytes "GPU_INSTALLER_DOWNLOAD_URL=" ++ s.gpuInstallerDownloadURL ]) :
    (∀ (files : List GoString) (content : GoString → List Nat),
      (∀ t0 argv cwd env, w.command t0 argv cwd env = none) →
      (∀ t0 path perm, w.mkdir t0 path perm = none) →
      (∀ t0 path data perm, w.write t0 path data perm = none) →
      (∀ t0 pattern, w.globFiles t0 pattern = Except.ok files) →
      (∀ t0 f, f ∈ files → w.read t0 f = Except.ok (content f)) →
      (∀ f ∈ files, ¬ bytes "nvidia-persistenced"
        <:+: (content f).map (fun b => if b = 0 then 32 else b)) →
      s.run w st deps t
        = (none, { s with NvidiaInstallDirHost := dir },
           t ++ [ Action.mkdirAll dir 0o755,
                  Action.runCommand [deps.MountCmd, bytes "--bind", dir, dir] [] none,
                  Action.runCommand [deps.MountCmd, bytes "-o", bytes "remount,exec", dir]
                    [] none,
                  Action.runCommand [deps.DockerCmd, bytes "pull", s.NvidiaInstallerContainer]
                    [] none,
                  Action.runCommand iargs [] (some (w.environ ++ ienv)),
                  Action.runCommand [filepathJoin [dir, bytes "bin", bytes "nvidia-smi"]]
                    [] none,
                  Action.glob (filepathJoin [deps.RootDir, bytes "proc", bytes "*",
                    bytes "cmdline"]) ]
             ++ files.map Action.readFile
             ++ [ Action.runCommand [filepathJoin [dir, bytes "bin",
                    bytes "nvidia-persistenced"], bytes "--verbose"] [] none,
                  Action.writeFile (filepathJoin [deps.RootDir, bytes "proc", bytes "sys",
                    bytes "kernel", bytes "softlockup_panic"]) (bytes "1") 0o644 ])) ∧
    (∀ e, w.mkdir t dir 0o755 = some e →
      s.run w st deps t
        = (some e, { s with NvidiaInstallDirHost := dir }, t ++ [Action.mkdirAll dir 0o755])) ∧
    (w.mkdir t dir 0o755 = none →
      ∀ e, w.command (t ++ [Action.mkdirAll dir 0o755])
          [deps.MountCmd, bytes "--bind", dir, dir] [] none = some e →
      s.run w st deps t
        = (some (GoError.errorfWrap "error bind mounting %q: %v" [dir] e),
           { s with NvidiaInstallDirHost := dir },
           t ++ [ Action.mkdirAll dir 0o755,
                  Action.runCommand [deps.MountCmd, bytes "--bind", dir, dir] [] none ])) ∧
    (w.mkdir t dir 0o755 = none →
      w.command (t ++ [Action.mkdirAll dir 0o755])
          [deps.MountCmd, bytes "--bind", dir, dir] [] none = none →
      ∀ e, w.command
          (t ++ [ Action.mkdirAll dir 0o755,
                  Action.runCommand [deps.MountCmd, bytes "--bind", dir, dir] [] none ])
          [deps.MountCmd, bytes "-o", bytes "remount,exec", dir] [] none = some e →
      s.run w st deps t
        = (some (GoError.errorfWrap "error remounting %q as executable: %v" [dir] e),
           { s with NvidiaInstallDirHost := dir },
           t ++ [ Action.mkdirAll dir 0o755,
                  Action.runCommand [deps.MountCmd, bytes "--bind", dir, dir] [] none,
                  Action.runCommand [deps.MountCmd, bytes "-o", bytes "remount,exec", dir]
                    [] none ])) ∧
    (∀ (r1 r2 r3 r4 r5 r6 : Option GoError) (found : Bool) (t1 t2 t3 t4 t5 t6 : Trace),
      installGPUStep.setupInstallDir w { s with NvidiaInstallDirHost := dir } deps.MountCmd
        { dockerCmd := deps.DockerCmd, journalctl := deps.JournalctlCmd } t = (r1, t1) →
      docker.pull w { dockerCmd := deps.DockerCmd, journalctl := deps.JournalctlCmd }
        [s.NvidiaInstallerContainer] t1 = (r2, t2) →
      installGPUStep.runInstaller w { s with NvidiaInstallDirHost := dir }
        { dockerCmd := deps.DockerCmd, journalctl := deps.JournalctlCmd } dv t2 = (r3, t3) →
      runCommand w [filepathJoin [dir, bytes "bin", bytes "nvidia-smi"]] [] none t3
        = (r4, t4) →
      processExists w deps.RootDir (bytes "nvidia-persistenced") t4 = ((found, r5), t5) →
      (if found then (none, t5)
        else runCommand w [filepathJoin [dir, bytes "bin", bytes "nvidia-persistenced"],
          bytes "--verbose"] [] none t5) = (r6, t6) →
      (w.mkdir t dir 0o755 = none →
        w.command (t ++ [Action.mkdirAll dir 0o755])
          [deps.MountCmd, bytes "--bind", dir, dir] [] none = none →
        w.command
          (t ++ [ Action.mkdirAll dir 0o755,
                  Action.runCommand [deps.MountCmd, bytes "--bind", dir, dir] [] none ])
          [deps.MountCmd, bytes "-o", bytes "remount,exec", dir] [] none = none →
        r1 = none ∧
        t1 = t ++ [ Action.mkdirAll dir 0o755,
                    Action.runCommand [deps.MountCmd, bytes "--bind", dir, dir] [] none,
                    Action.runCommand [deps.MountCmd, bytes "-o", bytes "remount,exec", dir]
                      [] none ]) ∧
      (∀ e, r1 = some e →
        s.run w st deps t = (some e, { s with NvidiaInstallDirHost := dir }, t1)) ∧
      (r1 = none → ∀ e, r2 = some e →
        s.run w st deps t = (some e, { s with NvidiaInstallDirHost := dir }, t2)) ∧
      (r1 = none → r2 = none → ∀ e, r3 = some e →
        s.run w st deps t = (some e, { s with NvidiaInstallDirHost := dir }, t3)) ∧
      (r1 = none → r2 = none → r3 = none → ∀ e, r4 = some e →
        s.run w st deps t = (some e, { s with NvidiaInstallDirHost := dir }, t4)) ∧
      (r1 = none → r2 = none → r3 = none → r4 = none → ∀ e, r5 = some e →
        s.run w st deps t
          = (some (GoError.errorfWrap
              "error searching for process \"nvidia-persistenced\": %v" [] e),
             { s with NvidiaInstallDirHost := dir }, t5)) ∧
      (r1 = none → r2 = none → r3 = none → r4 = none → r5 = none → ∀ e, r6 = some e →
        s.run w st deps t = (some e, { s with NvidiaInstallDirHost := dir }, t6)) ∧
      (r1 = none → r2 = none → r3 = none → r4 = none → r5 = none → r6 = none →
        s.run w st deps t
          = (w.write t6 (filepathJoin [deps.RootDir, bytes "proc", bytes "sys",
                bytes "kernel", bytes "softlockup_panic"]) (bytes "1") 0o644,
             { s with NvidiaInstallDirHost := dir },
             t6 ++ [Action.writeFile (filepathJoin [deps.RootDir, bytes "proc", bytes "sys",
                bytes "kernel", bytes "softlockup_panic"]) (bytes "1") 0o644])) ∧
      (r1 = none →
        (∀ j, j < 10 →
          w.command
            (t1 ++ List.replicate j
              (Action.runCommand [deps.DockerCmd, bytes "pull", s.NvidiaInstallerContainer]
                [] none))
            [deps.DockerCmd, bytes "pull", s.NvidiaInstallerContainer] [] none ≠ none) →
        (s.run w st deps t).1 ≠ none ∧
        s.run w st deps t
          = (w.command
              (t1 ++ List.replicate 9
                (Action.runCommand [deps.DockerCmd, bytes "pull", s.NvidiaInstallerContainer]
                  [] none))
              [deps.DockerCmd, bytes "pull", s.NvidiaInstallerContainer] [] none,
             { s with NvidiaInstallDirHost := dir },
             t1 ++ List.replicate 10
                (Action.runCommand [deps.DockerCmd, bytes "pull", s.NvidiaInstallerContainer]
                  [] none)
               ++ [Action.runCommand [deps.JournalctlCmd, bytes "-u", bytes "docker.service",
                    bytes "--no-pager"] [] none])) ∧
      (r1 = none → r2 = none →
        ∀ e, w.command t2 iargs [] (some (w.environ ++ ienv)) = some e →
        (s.run w st deps t).1 = some e ∧
        (s.run w st deps t).2.1 = { s with NvidiaInstallDirHost := dir } ∧
        ((s.run w st deps t).2.2
            = t2 ++ [ Action.runCommand iargs [] (some (w.environ ++ ienv)),
                      Action.openFile (filepathJoin [dir, bytes "nvidia-installer.log"]) ] ∨
         (s.run w st deps t).2.2
            = t2 ++ [ Action.runCommand iargs [] (some (w.environ ++ ienv)),
                      Action.openFile (filepathJoin [dir, bytes "nvidia-installer.log"]),
                      Action.copyToStdout (filepathJoin [dir, bytes "nvidia-installer.log"]),
                      Action.closeFile (filepathJoin [dir, bytes "nvidia-installer.log"]) ])) ∧
      (r1 = none → r2 = none → r3 = none →
        ∀ e, w.command t3 [filepathJoin [dir, bytes "bin", bytes "nvidia-smi"]] [] none
          = some e →
        s.run w st deps t
          = (some e, { s with NvidiaInstallDirHost := dir },
             t3 ++ [Action.runCommand [filepathJoin [dir, bytes "bin", bytes "nvidia-smi"]]
                [] none])) ∧
      (r1 = none → r2 = none → r3 = none → r4 = none →
        ∀ e, w.globFiles t4 (filepathJoin [deps.RootDir, bytes "proc", bytes "*",
          bytes "cmdline"]) = Except.error e →
        s.run w st deps t
          = (some (GoError.errorfWrap
              "error searching for process \"nvidia-persistenced\": %v" [] e),
             { s with NvidiaInstallDirHost := dir },
             t4 ++ [Action.glob (filepathJoin [deps.RootDir, bytes "proc", bytes "*",
                bytes "cmdline"])])) ∧
      (r1 = none → r2 = none → r3 = none → r4 = none →
        ∀ (content : GoString → List Nat) (pre : List GoString) (f : GoString)
          (post : List GoString) (e : GoError),
        w.globFiles t4 (filepathJoin [deps.RootDir, bytes "proc", bytes "*",
          bytes "cmdline"]) = Except.ok (pre ++ f :: post) →
        (∀ t0 g, g ∈ pre → w.read t0 g = Except.ok (content g)) →
        (∀ g ∈ pre, ¬ bytes "nvidia-persistenced"
          <:+: (content g).map (fun b => if b = 0 then 32 else b)) →
        w.read
          (t4 ++ [Action.glob (filepathJoin [deps.RootDir, bytes "proc", bytes "*",
              bytes "cmdline"])] ++ pre.map Action.readFile) f = Except.error e →
        s.run w st deps t
          = (some (GoError.errorfWrap
              "error searching for process \"nvidia-persistenced\": %v" [] e),
             { s with NvidiaInstallDirHost := dir },
             t4 ++ [Action.glob (filepathJoin [deps.RootDir, bytes "proc", bytes "*",
                bytes "cmdline"])] ++ pre.map Action.readFile ++ [Action.readFile f])) ∧
      (r1 = none → r2 = none → r3 = none → r4 = none → r5 = none → found = false →
        ∀ e, w.command t5 [filepathJoin [dir, bytes "bin", bytes "nvidia-persistenced"],
          bytes "--verbose"] [] none = some e →
        s.run w st deps t
          = (some e, { s with NvidiaInstallDirHost := dir },
             t5 ++ [Action.runCommand [filepathJoin [dir, bytes "bin",
                bytes "nvidia-persistenced"], bytes "--verbose"] [] none])) ∧
      (r1 = none → r2 = none → r3 = none → r4 = none → r5 = none → r6 = none →
        ∀ e, w.write t6 (filepathJoin [deps.RootDir, bytes "proc", bytes "sys",
          bytes "kernel", bytes "softlockup_panic"]) (bytes "1") 0o644 = some e →
        s.run w st deps t
          = (some e, { s with NvidiaInstallDirHost := dir },
             t6 ++ [Action.writeFile (filepathJoin [deps.RootDir, bytes "proc", bytes "sys",
                bytes "kernel", bytes "softlockup_panic"]) (bytes "1") 0o644]))) := by
  have hvalid := validate_of_fields s hver hcont
  have hsd := setDefaults_eq s dir hdir
  have hdv2 := deriveDriverVersion_cases s dv hdv
  have hres := run_stage_results State w s st deps t dv hvalid hdv2
  have hunfold := run_of_valid w s st deps t dv hvalid hdv2
  rw [hsd] at hres hunfold
  subst hargs henv
  refine ⟨?_, ?_, ?_, ?_, ?_⟩
  · intro files content hcmd hmkdir hwrite hglob hread hno
    exact hres.1 files content hcmd hmkdir hwrite hglob hread hno
  · intro e he
    rw [hunfold]
    simp [installGPUStep.setupInstallDir, he]
  · intro hmk e he
    rw [hunfold]
    simp [installGPUStep.setupInstallDir, runCommand, hmk, he]
  · intro hmk hbind e he
    rw [hunfold]
    simp [installGPUStep.setupInstallDir, runCommand, hmk, hbind, he]
  · intro r1 r2 r3 r4 r5 r6 found t1 t2 t3 t4 t5 t6 h1 h2 h3 h4 h5 h6
    obtain ⟨b1, b2, b3, b4, b5, b6, b7⟩ :=
      hres.2 r1 r2 r3 r4 r5 r6 found t1 t2 t3 t4 t5 t6 h1 h2 h3 h4 h5 h6
    refine ⟨?_, b1, b2, b3, b4, b5, b6, b7, ?_, ?_, ?_, ?_, ?_, ?_, ?_⟩
    · intro hmk hbind hrem
      simp [installGPUStep.setupInstallDir, runCommand, hmk, hbind, hrem] at h1
      exact ⟨h1.1.symm, h1.2.symm⟩
    · intro hr1 hfail
      have hp := pull_exhausted w { dockerCmd := deps.DockerCmd, journalctl := deps.JournalctlCmd }
        [s.NvidiaInstallerContainer] t1 hfail
      rw [h2] at hp
      simp only [Prod.mk.injEq] at hp
      obtain ⟨e, he⟩ := Option.ne_none_iff_exists'.mp (hfail 9 (by omega))
      have hrun := b2 hr1 e (by rw [hp.1]; exact he)
      refine ⟨by rw [hrun]; simp, ?_⟩
      rw [hrun, ← he, hp.2]
    · intro hr1 hr2 e he
      have hf := runInstaller_failure_cases w { s with NvidiaInstallDirHost := dir }
        { dockerCmd := deps.DockerCmd, journalctl := deps.JournalctlCmd } dv t2 e he
      rw [h3] at hf
      have hrun := b3 hr1 hr2 e hf.1
      rw [hrun]
      exact ⟨rfl, rfl, hf.2⟩
    · intro hr1 hr2 hr3 e he
      simp only [runCommand, Prod.mk.injEq] at h4
      have hrun := b4 hr1 hr2 hr3 e (by rw [← h4.1]; exact he)
      rw [hrun, ← h4.2]
    · intro hr1 hr2 hr3 hr4 e he
      simp only [processExists, he, Prod.mk.injEq] at h5
      have hrun := b5 hr1 hr2 hr3 hr4 e h5.1.2.symm
      rw [hrun, ← h5.2]
    · intro hr1 hr2 hr3 hr4 content pre f post e hglob hread hno hfail
      have hloop := processExistsLoop_read_error w (bytes "nvidia-persistenced") content
        pre f post e _ hread hno hfail
      simp only [processExists, hglob, hloop, Prod.mk.injEq] at h5
      have hrun := b5 hr1 hr2 hr3 hr4 e h5.1.2.symm
      rw [hrun, ← h5.2]
    · intro hr1 hr2 hr3 hr4 hr5 hfound e he
      subst hfound
      simp only [Bool.false_eq_true, if_false, runCommand, Prod.mk.injEq] at h6
      have hrun := b6 hr1 hr2 hr3 hr4 hr5 e (by rw [← h6.1]; exact he)
      rw [hrun, ← h6.2]
    · intro hr1 hr2 hr3 hr4 hr5 hr6 e he
      rw [b7 hr1 hr2 hr3 hr4 hr5 hr6, he]

set_option maxRecDepth 8192 in
/-- Instance of C8: the end-to-end scenario (version `450.51.06`, checksum
`abc123`, container `gcr.io/example/gpu-installer:latest`, install directory
unset).  In a world where everything succeeds and the process table holds one
file, `sleep 60`, the install directory is `/var/lib/nvidia`, the installer gets
`NVIDIA_DRIVER_VERSION=450.51.06`, and `run` returns `nil` after the ten
interactions listed.  In `mkdirFailWorld` the directory creation fails: `run`
returns its error after that single interaction.  In `smiFailWorld` the sanity
check fails: `run` returns its error and the history ends with the `nvidia-smi`
invocation.  In `globFailWorld` the process scan cannot enumerate: `run`
returns the wrapped error and the history ends with the glob. -/
theorem run_stage_sequence_witness :
    sampleStep.run
        (tableWorld [bytes "/proc/1/cmdline"] (fun f => Except.ok (readableTable f)))
        () sampleDeps []
      = (none, { sampleStep with NvidiaInstallDirHost := bytes "/var/lib/nvidia" },
         [ Action.mkdirAll (bytes "/var/lib/nvidia") 0o755,
           Action.runCommand
             [bytes "mount", bytes "--bind", bytes "/var/lib/nvidia", bytes "/var/lib/nvidia"]
             [] none,
           Action.runCommand
             [bytes "mount", bytes "-o", bytes "remount,exec", bytes "/var/lib/nvidia"] [] none,
           Action.runCommand
             [bytes "docker", bytes "pull", bytes "gcr.io/example/gpu-installer:latest"] [] none,
           Action.runCommand sampleInstallerArgs [] (some sampleInstallerEnv),
           Action.runCommand [bytes "/var/lib/nvidia/bin/nvidia-smi"] [] none,
           Action.glob (bytes "/proc/*/cmdline"),
           Action.readFile (bytes "/proc/1/cmdline"),
           Action.runCommand
             [bytes "/var/lib/nvidia/bin/nvidia-persistenced", bytes "--verbose"] [] none,
           Action.writeFile (bytes "/proc/sys/kernel/softlockup_panic") (bytes "1") 0o644 ]) ∧
    sampleStep.run mkdirFailWorld () sampleDeps []
      = (some (GoError.external 5),
         { sampleStep with NvidiaInstallDirHost := bytes "/var/lib/nvidia" },
         [ Action.mkdirAll (bytes "/var/lib/nvidia") 0o755 ]) ∧
    sampleStep.run smiFailWorld () sampleDeps []
      = (some (GoError.external 9),
         { sampleStep with NvidiaInstallDirHost := bytes "/var/lib/nvidia" },
         [ Action.mkdirAll (bytes "/var/lib/nvidia") 0o755,
           Action.runCommand
             [bytes "mount", bytes "--bind", bytes "/var/lib/nvidia", bytes "/var/lib/nvidia"]
             [] none,
           Action.runCommand
             [bytes "mount", bytes "-o", bytes "remount,exec", bytes "/var/lib/nvidia"] [] none,
           Action.runCommand
             [bytes "docker", bytes "pull", bytes "gcr.io/example/gpu-installer:latest"] [] none,
           Action.runCommand sampleInstallerArgs [] (some sampleInstallerEnv),
           Action.runCommand [bytes "/var/lib/nvidia/bin/nvidia-smi"] [] none ]) ∧
    sampleStep.run globFailWorld () sampleDeps []
      = (some (GoError.errorfWrap "error searching for process \"nvidia-persistenced\": %v" []
           (GoError.external 3)),
         { sampleStep with NvidiaInstallDirHost := bytes "/var/lib/nvidia" },
         [ Action.mkdirAll (bytes "/var/lib/nvidia") 0o755,
           Action.runCommand
             [bytes "mount", bytes "--bind", bytes "/var/lib/nvidia", bytes "/var/lib/nvidia"]
             [] none,
           Action.runCommand
             [bytes "mount", bytes "-o", bytes "remount,exec", bytes "/var/lib/nvidia"] [] none,
           Action.runCommand
             [bytes "docker", bytes "pull", bytes "gcr.io/example/gpu-installer:latest"] [] none,
           Action.runCommand sampleInstallerArgs [] (some sampleInstallerEnv),
           Action.runCommand [bytes "/var/lib/nvidia/bin/nvidia-smi"] [] none,
           Action.glob (bytes "/proc/*/cmdline") ]) :=
  ⟨((run_stage_sequence Unit
        (tableWorld [bytes "/proc/1/cmdline"] (fun f => Except.ok (readableTable f)))
        sampleStep () sampleDeps [] (bytes "/var/lib/nvidia") (bytes "450.51.06")
        sampleInstallerArgs sampleInstallerEnv
        (by decide) (by decide) (by decide) (Or.inl ⟨by decide, rfl⟩) (by decide) (by decide)).1
      [bytes "/proc/1/cmdline"] readableTable
      (fun _ _ _ _ => rfl) (fun _ _ _ => rfl) (fun _ _ _ _ => rfl) (fun _ _ => rfl)
      (fun _ _ _ => rfl)
      (by
        intro f hf
        rw [List.mem_singleton.mp hf, ← stringsContains_iff_contiguous]
        decide)).trans (by decide),
   ((run_stage_sequence Unit mkdirFailWorld sampleStep () sampleDeps []
        (bytes "/var/lib/nvidia") (bytes "450.51.06") sampleInstallerArgs sampleInstallerEnv
        (by decide) (by decide) (by decide) (Or.inl ⟨by decide, rfl⟩) (by decide) (by decide)).2.1
      (GoError.external 5) rfl).trans (by decide),
   match (run_stage_sequence Unit smiFailWorld sampleStep () sampleDeps []
        (bytes "/var/lib/nvidia") (bytes "450.51.06") sampleInstallerArgs sampleInstallerEnv
        (by decide) (by decide) (by decide) (Or.inl ⟨by decide, rfl⟩) (by decide) (by decide)).2.2.2.2
      none none none (some (GoError.external 9)) none none false
      _ _ _ _ _ _ rfl rfl rfl rfl rfl rfl with
   | ⟨_, _, _, _, _, _, _, _, _, _, hsmi, _, _, _, _⟩ =>
     (hsmi rfl rfl rfl (GoError.external 9) rfl).trans (by decide),
   match (run_stage_sequence Unit globFailWorld sampleStep () sampleDeps []
        (bytes "/var/lib/nvidia") (bytes "450.51.06") sampleInstallerArgs sampleInstallerEnv
        (by decide) (by decide) (by decide) (Or.inl ⟨by decide, rfl⟩) (by decide) (by decide)).2.2.2.2
      none none none none (some (GoError.external 3)) none false
      _ _ _ _ _ _ rfl rfl rfl rfl rfl rfl with
   | ⟨_, _, _, _, _, _, _, _, _, _, _, hglob, _, _, _⟩ =>
     (hglob rfl rfl rfl rfl (GoError.external 3) rfl).trans (by decide)⟩

end Provisioner
